import Mathlib

/-!
Shallow embedding of the weight-impact calibration engine of
fzhang15/smartcalorie-ai (TypeScript), for checking its natural-language
specification.

Sources embedded:
- `src/utils/profileUtils.ts` : `calculateBmr`, `calibrateWeight`
- `src/hooks/useAppData.ts`  : the impact-history backfill effect
  (`calculateDailyImpact` and the date loop), `handleEditMealLog`,
  `handleUpdateWeight`'s correction application
- `src/constants.ts`          : `ACTIVITY_MULTIPLIERS`, `CALORIES_PER_KG_FAT`
- `src/utils/dateUtils.ts`    : `formatDateKey`

Modelling conventions:
- JavaScript `number` becomes `ℚ` (exact arithmetic; the spec's tolerance
  claims are stated "exactly, in real arithmetic").
- Epoch-millisecond timestamps become `ℤ`.  The local timezone is fixed at
  UTC offset 0 with no DST, so `Date.setHours(0,0,0,0)` is flooring to a
  multiple of 86400000 ms and `setDate(getDate()+1)` is `+86400000`.
- `Date.prototype.getFullYear/getMonth/getDate` are modelled by the standard
  civil-from-days conversion on the day index.
- `formatDateKey` produces the string "YYYY-MM-DD"; those strings are in
  order-preserving bijection with day indices, so date keys are modelled by
  the day index `ℤ` (only equality and ordering of keys are ever used).
- Truthiness: the `||` fallbacks on numeric fields treat `0` as the only
  falsy value (the stored fields are numbers after profile migration).
- `calibrationBaseWeight ?? weight` is modelled with an `Option` field.
-/

namespace SmartCalorie

/-- Milliseconds per calendar day (no DST in the modelled timezone). -/
def msPerDay : Int := 86400000

/-- Milliseconds per hour. -/
def msPerHour : Int := 3600000

/-- Day index of an epoch-ms timestamp (floor division, so it is the local
calendar day also for negative timestamps). -/
def dayIdx (t : Int) : Int := t.fdiv msPerDay

/-- `new Date(t).setHours(0, 0, 0, 0)` — midnight at the start of `t`'s day. -/
def startOfDay (t : Int) : Int := dayIdx t * msPerDay

/-- `new Date(t).setHours(23, 59, 59, 999)` — last millisecond of `t`'s day. -/
def endOfDay (t : Int) : Int := startOfDay t + 86399999

/-- Civil date `(year, month 1–12, day 1–31)` of a day index (days since
1970-01-01), by the standard Gregorian conversion. -/
def civilFromDays (z0 : Int) : Int × Int × Int :=
  let z := z0 + 719468
  let era := z.fdiv 146097
  let doe := (z - era * 146097).toNat
  let yoe := (doe - doe / 1460 + doe / 36524 - doe / 146096) / 365
  let y : Int := (yoe : Int) + era * 400
  let doy := doe - (365 * yoe + yoe / 4 - yoe / 100)
  let mp := (5 * doy + 2) / 153
  let d : Int := (doy : Int) - ((153 * mp + 2) / 5 : Nat) + 1
  let m : Int := (mp : Int) + (if mp < 10 then 3 else -9)
  (y + (if m ≤ 2 then 1 else 0), m, d)

/-- `Date.prototype.getFullYear` on an epoch-ms timestamp. -/
def jsGetFullYear (t : Int) : Int := (civilFromDays (dayIdx t)).1

/-- `Date.prototype.getMonth` (0-based) on an epoch-ms timestamp. -/
def jsGetMonth (t : Int) : Int := (civilFromDays (dayIdx t)).2.1 - 1

/-- `Date.prototype.getDate` (day of month) on an epoch-ms timestamp. -/
def jsGetDate (t : Int) : Int := (civilFromDays (dayIdx t)).2.2

/-- The three-way comparison `a.getDate() === b.getDate() && a.getMonth() ===
b.getMonth() && a.getFullYear() === b.getFullYear()` used for the
`isFirstDay` / `isToday` checks. -/
def sameCalendarDay (t1 t2 : Int) : Prop :=
  jsGetDate t1 = jsGetDate t2 ∧ jsGetMonth t1 = jsGetMonth t2 ∧
    jsGetFullYear t1 = jsGetFullYear t2

instance (t1 t2 : Int) : Decidable (sameCalendarDay t1 t2) := by
  unfold sameCalendarDay; infer_instance

/-- `Math.round` (round half toward +∞), as a map `ℚ → ℚ`. -/
def jsRoundQ (q : ℚ) : ℚ := ((⌊q + 1/2⌋ : ℤ) : ℚ)

/-- `x || d` for a numeric field: `0` is the falsy case. -/
def orDefault (x d : ℚ) : ℚ := if x = 0 then d else x

/-- `getHours()` of an epoch-ms timestamp (local time). -/
def jsGetHours (t : Int) : Int := (t.emod msPerDay).fdiv msPerHour

/-- `getMinutes()` of an epoch-ms timestamp (local time). -/
def jsGetMinutes (t : Int) : Int := (t.emod msPerHour).fdiv 60000

/-- `(now.getHours() + now.getMinutes() / 60) / 24` from the "today, not
first day" branch of the per-day BMR computation. -/
def jsDayProgress (t : Int) : ℚ :=
  ((jsGetHours t : ℚ) + (jsGetMinutes t : ℚ) / 60) / 24

/-- `formatDateKey` — the "YYYY-MM-DD" key of a timestamp's local day,
modelled by the day index (an order-preserving bijection). -/
def formatDateKey (t : Int) : Int := dayIdx t

/-- `CALORIES_PER_KG_FAT` from `src/constants.ts`. -/
def CALORIES_PER_KG_FAT : ℚ := 7700

inductive Gender where
  | male
  | female
  deriving DecidableEq

inductive ActivityLevel where
  | sedentary
  | light
  | moderate
  | active
  | veryActive
  deriving DecidableEq

/-- `ACTIVITY_MULTIPLIERS` from `src/constants.ts`. -/
def ACTIVITY_MULTIPLIERS : ActivityLevel → ℚ
  | .sedentary => 1.2
  | .light => 1.375
  | .moderate => 1.55
  | .active => 1.725
  | .veryActive => 1.9

/-- `UserProfile` (`src/types.ts`), restricted to the fields the calibration
and backfill logic reads or writes.  Display-only fields (name, avatar,
units, water settings, …) are carried unchanged by the object spreads in the
source and are omitted. -/
structure UserProfile where
  age : ℚ
  gender : Gender
  height : ℚ
  weight : ℚ
  activityLevel : ActivityLevel
  bmr : ℚ
  tdee : ℚ
  createdAt : Int
  lastWeightUpdate : Int
  calibrationFactor : ℚ
  calibrationBaseWeight : Option ℚ
  deriving DecidableEq

/-- `MealLog` (`src/types.ts`), restricted to the fields read by the engine:
`items` is the list of the items' calorie values. -/
structure MealLog where
  id : Nat
  timestamp : Int
  items : List ℚ
  totalCalories : ℚ
  deriving DecidableEq

/-- `ExerciseLog` (`src/types.ts`), restricted to the fields read. -/
structure ExerciseLog where
  id : Nat
  timestamp : Int
  caloriesBurned : ℚ
  deriving DecidableEq

/-- `DailyImpactRecord` (`src/types.ts`); `date` is the modelled date key. -/
structure DailyImpactRecord where
  date : Int
  impactKg : ℚ
  deriving DecidableEq

/-- `calculateBmr` from `src/utils/profileUtils.ts` (Mifflin–St Jeor). -/
def calculateBmr (weight height age : ℚ) (gender : Gender) : ℚ :=
  let bmr := 10 * weight + 6.25 * height - 5 * age
  match gender with
  | .male => bmr + 5
  | .female => bmr - 161

/-- `log.timestamp >= dayStart.getTime() && log.timestamp <= dayEnd.getTime()`
for the day beginning at midnight `dayStart`. -/
def inDayWindow (dayStart ts : Int) : Prop :=
  dayStart ≤ ts ∧ ts ≤ dayStart + 86399999

instance (dayStart ts : Int) : Decidable (inDayWindow dayStart ts) := by
  unfold inDayWindow; infer_instance

/-- The meal logs falling in the day beginning at `dayStart`. -/
def mealLogsOn (logs : List MealLog) (dayStart : Int) : List MealLog :=
  logs.filter fun log => decide (inDayWindow dayStart log.timestamp)

/-- The exercise logs falling in the day beginning at `dayStart`. -/
def exerciseLogsOn (exerciseLogs : List ExerciseLog) (dayStart : Int) :
    List ExerciseLog :=
  exerciseLogs.filter fun log => decide (inDayWindow dayStart log.timestamp)

/-- `…reduce((acc, log) => acc + log.totalCalories, 0)` over a day's meals. -/
def mealCaloriesOn (logs : List MealLog) (dayStart : Int) : ℚ :=
  (mealLogsOn logs dayStart).foldl (fun acc log => acc + log.totalCalories) 0

/-- `…reduce((acc, log) => acc + log.caloriesBurned, 0)` over a day's
exercise logs. -/
def exerciseCaloriesOn (exerciseLogs : List ExerciseLog) (dayStart : Int) : ℚ :=
  (exerciseLogsOn exerciseLogs dayStart).foldl
    (fun acc log => acc + log.caloriesBurned) 0

/-- `CalibrationResult` from `src/utils/profileUtils.ts`: corrections are
`(date, correctionPerDay)` pairs, `none` standing for the `null` case. -/
structure CalibrationResult where
  updatedProfile : UserProfile
  impactCorrections : Option (List (Int × ℚ))
  deriving DecidableEq

/-- The accumulators of the calibration date loop: `predictedChange`,
`totalBmrBurned` and `recordsInPeriod` (pairs `(dateKey, impact)`). -/
structure CalibScan where
  predictedChange : ℚ
  totalBmrBurned : ℚ
  recordsInPeriod : List (Int × ℚ)
  deriving DecidableEq

/-- The `bmrBurned` computation for one loop day `current`: the four-way
first-day / today split of `calibrateWeight`, with every clock read
returning `now`. -/
def calibDayBmr (now lastUpdate : Int) (effectiveBmr : ℚ) (current : Int) : ℚ :=
  if sameCalendarDay current lastUpdate ∧ sameCalendarDay current now then
    let hoursElapsed : ℚ := ((now - lastUpdate : Int) : ℚ) / (1000 * 60 * 60)
    jsRoundQ ((effectiveBmr / 24) * max 0 hoursElapsed)
  else if sameCalendarDay current lastUpdate then
    let hoursElapsed : ℚ :=
      ((endOfDay lastUpdate - lastUpdate : Int) : ℚ) / (1000 * 60 * 60)
    jsRoundQ ((effectiveBmr / 24) * hoursElapsed)
  else if sameCalendarDay current now then
    jsRoundQ (effectiveBmr * jsDayProgress now)
  else effectiveBmr

/-- One iteration of the calibration date loop: aggregate the day's meal and
exercise calories, compute `bmrBurned`, and if the day has any logs push its
impact into the accumulators. -/
def calibScanStep (logs : List MealLog) (exerciseLogs : List ExerciseLog)
    (now lastUpdate : Int) (effectiveBmr : ℚ) (current : Int) (s : CalibScan) :
    CalibScan :=
  let dayStart := startOfDay current
  let dayMealCalories := mealCaloriesOn logs dayStart
  let dayExerciseCalories := exerciseCaloriesOn exerciseLogs dayStart
  let hasLogs := (mealLogsOn logs dayStart) ≠ [] ∨
    (exerciseLogsOn exerciseLogs dayStart) ≠ []
  let bmrBurned := calibDayBmr now lastUpdate effectiveBmr current
  if hasLogs then
    let dayImpact :=
      (dayMealCalories - bmrBurned - dayExerciseCalories) / CALORIES_PER_KG_FAT
    { predictedChange := s.predictedChange + dayImpact
      totalBmrBurned := s.totalBmrBurned + bmrBurned
      recordsInPeriod := s.recordsInPeriod ++ [(formatDateKey current, dayImpact)] }
  else s

/-- The calibration date loop, by the number `n` of remaining days:
`while (current <= today)` stepping `current` one day at a time. -/
def calibScanAux (logs : List MealLog) (exerciseLogs : List ExerciseLog)
    (now lastUpdate : Int) (effectiveBmr : ℚ) :
    Nat → Int → CalibScan → CalibScan
  | 0, _, s => s
  | n + 1, current, s =>
      calibScanAux logs exerciseLogs now lastUpdate effectiveBmr n
        (current + msPerDay)
        (calibScanStep logs exerciseLogs now lastUpdate effectiveBmr current s)

/-- `profile.lastWeightUpdate || Date.now()` with all clock reads at `now`. -/
def calibLastUpdate (now : Int) (profile : UserProfile) : Int :=
  if profile.lastWeightUpdate = 0 then now else profile.lastWeightUpdate

/-- `dayGap = Math.floor(gapHours / 24)` of `calibrateWeight`. -/
def calibDayGap (now : Int) (profile : UserProfile) : Int :=
  let lastUpdate := calibLastUpdate now profile
  let gapHours : ℚ := ((now - lastUpdate : Int) : ℚ) / (1000 * 60 * 60)
  ⌊gapHours / 24⌋

/-- `actualChange = newWeight - (profile.calibrationBaseWeight ?? profile.weight)`. -/
def calibActualChange (profile : UserProfile) (newWeight : ℚ) : ℚ :=
  newWeight - profile.calibrationBaseWeight.getD profile.weight

/-- `effectiveBmr = profile.bmr * (profile.calibrationFactor || 1.0)`. -/
def calibEffectiveBmr (profile : UserProfile) : ℚ :=
  profile.bmr * orDefault profile.calibrationFactor 1.0

/-- The full calibration date loop of `calibrateWeight`: from the start of
`lastUpdate`'s day through the start of today, inclusive. -/
def calibScan (now : Int) (profile : UserProfile) (logs : List MealLog)
    (exerciseLogs : List ExerciseLog) : CalibScan :=
  let lastUpdate := calibLastUpdate now profile
  let today := startOfDay now
  let startOfUpdateDay := startOfDay lastUpdate
  calibScanAux logs exerciseLogs now lastUpdate (calibEffectiveBmr profile)
    (dayIdx today - dayIdx startOfUpdateDay + 1).toNat startOfUpdateDay
    ⟨0, 0, []⟩

/-- `calibrateWeight` from `src/utils/profileUtils.ts`, with every clock read
(`Date.now()` / `new Date()`) returning the single instant `now`.  See
`calibrateWeightClock` for the version in which each read is explicit;
`calibrateWeightClock_const` relates the two. -/
def calibrateWeight (now : Int) (profile : UserProfile) (logs : List MealLog)
    (exerciseLogs : List ExerciseLog) (newWeight : ℚ) : CalibrationResult :=
  let actualChange := calibActualChange profile newWeight
  let dayGap := calibDayGap now profile
  let newBmr := calculateBmr newWeight profile.height profile.age profile.gender
  let newTdee := newBmr * ACTIVITY_MULTIPLIERS profile.activityLevel
  if dayGap = 0 then
    { updatedProfile :=
        { profile with
          weight := newWeight
          bmr := jsRoundQ newBmr
          tdee := jsRoundQ newTdee }
      impactCorrections := none }
  else
    let s := calibScan now profile logs exerciseLogs
    let predictionError := s.predictedChange - actualChange
    let newRatio : ℚ := min ((dayGap : ℚ) * 0.1) 0.5
    let oldRatio : ℚ := 1 - newRatio
    let factor0 := orDefault profile.calibrationFactor 1.0
    let newCalibrationFactor :=
      if s.totalBmrBurned > 0 then
        let bmrCorrectionRatio :=
          1 + (s.predictedChange - actualChange) * CALORIES_PER_KG_FAT /
            s.totalBmrBurned
        let thisMeasurementFactor := factor0 * bmrCorrectionRatio
        if |bmrCorrectionRatio - 1| > 0.05 then
          let clampedFactor := max 0.5 (min 1.5 thisMeasurementFactor)
          oldRatio * factor0 + newRatio * clampedFactor
        else factor0
      else factor0
    let impactCorrections :=
      if s.recordsInPeriod.length > 0 ∧ |predictionError| > 0.001 then
        some (s.recordsInPeriod.map fun rec =>
          (rec.1, predictionError / (s.recordsInPeriod.length : ℚ)))
      else none
    { updatedProfile :=
        { profile with
          weight := newWeight
          bmr := jsRoundQ newBmr
          tdee := jsRoundQ newTdee
          lastWeightUpdate := now
          calibrationFactor := newCalibrationFactor
          calibrationBaseWeight := some newWeight }
      impactCorrections := impactCorrections }

/-- `calculateDailyImpact` from the backfill effect in
`src/hooks/useAppData.ts`: `null` (here `none`) when the day has neither
meal nor exercise logs, otherwise
`(dayMealCalories - profile.bmr - dayExerciseCalories) / CALORIES_PER_KG_FAT`. -/
def calculateDailyImpact (profile : UserProfile) (logs : List MealLog)
    (exerciseLogs : List ExerciseLog) (date : Int) : Option ℚ :=
  let dayStart := startOfDay date
  let dayMealLogs := mealLogsOn logs dayStart
  let dayExerciseLogsFiltered := exerciseLogsOn exerciseLogs dayStart
  if dayMealLogs.length = 0 ∧ dayExerciseLogsFiltered.length = 0 then none
  else
    let dayMealCalories :=
      dayMealLogs.foldl (fun acc log => acc + log.totalCalories) 0
    let dayExerciseCalories :=
      dayExerciseLogsFiltered.foldl (fun acc log => acc + log.caloriesBurned) 0
    let netCalories := dayMealCalories - profile.bmr - dayExerciseCalories
    some (netCalories / CALORIES_PER_KG_FAT)

/-- The backfill date loop (`while (current < today)`), by the number `n` of
remaining days: skip dates already present, append a record when
`calculateDailyImpact` is not `none`. -/
def backfillAux (profile : UserProfile) (logs : List MealLog)
    (exerciseLogs : List ExerciseLog) (existingDates : List Int) :
    Nat → Int → List DailyImpactRecord
  | 0, _ => []
  | n + 1, current =>
      let rest := backfillAux profile logs exerciseLogs existingDates n
        (current + msPerDay)
      if formatDateKey current ∈ existingDates then rest
      else
        match calculateDailyImpact profile logs exerciseLogs current with
        | some impact => ⟨formatDateKey current, impact⟩ :: rest
        | none => rest

/-- The first backfill day: midnight of
`max(earliest log or exercise timestamp, midnight of profile.createdAt)`,
given the first meal log `l0` (the effect returns early when there are no
meal logs).  `profile.createdAt || Date.now()` reads the clock as `now`. -/
def backfillStart (now : Int) (profile : UserProfile) (l0 : MealLog)
    (logs : List MealLog) (exerciseLogs : List ExerciseLog) : Int :=
  let allTimestamps :=
    logs.map (fun l => l.timestamp) ++ exerciseLogs.map (fun l => l.timestamp)
  let earliestLogTime := allTimestamps.foldl min l0.timestamp
  let createdAtDay :=
    startOfDay (if profile.createdAt = 0 then now else profile.createdAt)
  startOfDay (max earliestLogTime createdAtDay)

/-- The impact-history backfill effect of `src/hooks/useAppData.ts`
(lines 168–224), as a function of the entry instant `now`: returns the list
of new records in ascending date order.  The effect returns early (no
records) when the meal-log list is empty, even if exercise logs exist. -/
def backfillMissingDays (now : Int) (profile : UserProfile)
    (logs : List MealLog) (exerciseLogs : List ExerciseLog)
    (existingRecords : List DailyImpactRecord) : List DailyImpactRecord :=
  match logs with
  | [] => []
  | l0 :: _ =>
      let today := startOfDay now
      let earliestLog := backfillStart now profile l0 logs exerciseLogs
      let existingDates := existingRecords.map fun r => r.date
      backfillAux profile logs exerciseLogs existingDates
        (dayIdx today - dayIdx earliestLog).toNat earliestLog

/-- The correction application of `handleUpdateWeight`
(`src/hooks/useAppData.ts`): each record whose date has a correction gets
`impactKg - correctionPerDay`; `none` corrections leave the store alone. -/
def applyCorrections (history : List DailyImpactRecord)
    (corrections : Option (List (Int × ℚ))) : List DailyImpactRecord :=
  match corrections with
  | none => history
  | some cs =>
      history.map fun record =>
        match cs.find? (fun c => decide (c.1 = record.date)) with
        | some c => { record with impactKg := record.impactKg - c.2 }
        | none => record

/-- `handleUpdateWeight` (`src/hooks/useAppData.ts`): run `calibrateWeight`,
apply the corrections to the impact history, and store the updated profile. -/
def handleUpdateWeight (now : Int) (profile : UserProfile)
    (logs : List MealLog) (exerciseLogs : List ExerciseLog)
    (history : List DailyImpactRecord) (newWeight : ℚ) :
    UserProfile × List DailyImpactRecord :=
  let result := calibrateWeight now profile logs exerciseLogs newWeight
  (result.updatedProfile, applyCorrections history result.impactCorrections)

/-- `Partial<MealLog>` as passed to `handleEditMealLog`, restricted to the
modelled fields. -/
structure MealLogUpdates where
  timestamp : Option Int := none
  items : Option (List ℚ) := none
  totalCalories : Option ℚ := none

/-- `{ ...log, ...updates }` followed by the `totalCalories` recomputation
from `updates.items` when items were updated. -/
def applyMealUpdates (log : MealLog) (updates : MealLogUpdates) : MealLog :=
  let merged : MealLog :=
    { log with
      timestamp := updates.timestamp.getD log.timestamp
      items := updates.items.getD log.items
      totalCalories := updates.totalCalories.getD log.totalCalories }
  match updates.items with
  | some items =>
      { merged with totalCalories := items.foldl (fun acc c => acc + c) 0 }
  | none => merged

/-- The updated meal-log list of `handleEditMealLog`. -/
def editUpdatedLogs (logs : List MealLog) (logId : Nat)
    (updates : MealLogUpdates) : List MealLog :=
  logs.map fun log => if log.id = logId then applyMealUpdates log updates else log

/-- `handleEditMealLog` (`src/hooks/useAppData.ts`, lines 298–328): update
the log, and when the edited log's day is a past day, wholesale-recompute
that day's impact record from the updated logs.  Clock reads return `now`.
Returns the new logs and the new impact history. -/
def handleEditMealLog (now : Int) (profile : UserProfile)
    (logs : List MealLog) (exerciseLogs : List ExerciseLog)
    (history : List DailyImpactRecord) (logId : Nat)
    (updates : MealLogUpdates) : List MealLog × List DailyImpactRecord :=
  let updatedLogs := editUpdatedLogs logs logId updates
  match updatedLogs.find? (fun l => decide (l.id = logId)) with
  | none => (updatedLogs, history)
  | some editedLog =>
      if sameCalendarDay editedLog.timestamp now then (updatedLogs, history)
      else
        let dateKey := formatDateKey editedLog.timestamp
        let dayStart := startOfDay editedLog.timestamp
        let dayMealCalories := mealCaloriesOn updatedLogs dayStart
        let dayExerciseCalories := exerciseCaloriesOn exerciseLogs dayStart
        let netCalories := dayMealCalories - profile.bmr - dayExerciseCalories
        let newImpact := netCalories / CALORIES_PER_KG_FAT
        (updatedLogs,
          history.map fun record =>
            if record.date = dateKey then { record with impactKg := newImpact }
            else record)

/-!
Clock-explicit version of `calibrateWeight`.  The source calls `Date.now()`
and `new Date()` at several points inside one invocation; here `clock k` is
the value returned by the `k`-th such read (in evaluation order), and the
read counter is threaded through.  `calibrateWeightClock_const` shows that
when every read returns the same instant the result is `calibrateWeight` at
that instant.
-/

/-- The `isToday` conjunction
`current.getDate() === new Date().getDate() && current.getMonth() === new
Date().getMonth() && current.getFullYear() === new Date().getFullYear()`:
each `new Date()` is a separate clock read, and `&&` short-circuits.
Returns the value and the next read index. -/
def isTodayClock (clock : Nat → Int) (k : Nat) (current : Int) : Bool × Nat :=
  if jsGetDate current = jsGetDate (clock k) then
    if jsGetMonth current = jsGetMonth (clock (k + 1)) then
      if jsGetFullYear current = jsGetFullYear (clock (k + 2)) then (true, k + 3)
      else (false, k + 3)
    else (false, k + 2)
  else (false, k + 1)

/-- Clock-explicit `bmrBurned` computation for one loop day. -/
def calibDayBmrClock (clock : Nat → Int) (k : Nat) (lastUpdate : Int)
    (effectiveBmr : ℚ) (current : Int) : ℚ × Nat :=
  let isFirstDay := sameCalendarDay current lastUpdate
  let it := isTodayClock clock k current
  if isFirstDay ∧ it.1 = true then
    let t := clock it.2
    let hoursElapsed : ℚ := ((t - lastUpdate : Int) : ℚ) / (1000 * 60 * 60)
    (jsRoundQ ((effectiveBmr / 24) * max 0 hoursElapsed), it.2 + 1)
  else if isFirstDay then
    let hoursElapsed : ℚ :=
      ((endOfDay lastUpdate - lastUpdate : Int) : ℚ) / (1000 * 60 * 60)
    (jsRoundQ ((effectiveBmr / 24) * hoursElapsed), it.2)
  else if it.1 = true then
    let t := clock it.2
    (jsRoundQ (effectiveBmr * jsDayProgress t), it.2 + 1)
  else (effectiveBmr, it.2)

/-- Clock-explicit calibration date loop. -/
def calibScanClockAux (clock : Nat → Int) (logs : List MealLog)
    (exerciseLogs : List ExerciseLog) (lastUpdate : Int) (effectiveBmr : ℚ) :
    Nat → Int → CalibScan × Nat → CalibScan × Nat
  | 0, _, sk => sk
  | n + 1, current, (s, k) =>
      let dayStart := startOfDay current
      let dayMealCalories := mealCaloriesOn logs dayStart
      let dayExerciseCalories := exerciseCaloriesOn exerciseLogs dayStart
      let hasLogs := (mealLogsOn logs dayStart) ≠ [] ∨
        (exerciseLogsOn exerciseLogs dayStart) ≠ []
      let bk := calibDayBmrClock clock k lastUpdate effectiveBmr current
      let s1 :=
        if hasLogs then
          let dayImpact := (dayMealCalories - bk.1 - dayExerciseCalories) /
            CALORIES_PER_KG_FAT
          { predictedChange := s.predictedChange + dayImpact
            totalBmrBurned := s.totalBmrBurned + bk.1
            recordsInPeriod :=
              s.recordsInPeriod ++ [(formatDateKey current, dayImpact)] }
        else s
      calibScanClockAux clock logs exerciseLogs lastUpdate effectiveBmr n
        (current + msPerDay) (s1, bk.2)

/-- `calibrateWeight` with every clock read explicit, in source evaluation
order: the `lastWeightUpdate || Date.now()` fallback, the `gapHours` read,
the `today` read, the per-day `isToday` and partial-day reads, and the final
`lastWeightUpdate: Date.now()` of the returned profile. -/
def calibrateWeightClock (clock : Nat → Int) (profile : UserProfile)
    (logs : List MealLog) (exerciseLogs : List ExerciseLog) (newWeight : ℚ) :
    CalibrationResult :=
  let actualChange := calibActualChange profile newWeight
  let luk : Int × Nat :=
    if profile.lastWeightUpdate = 0 then (clock 0, 1)
    else (profile.lastWeightUpdate, 0)
  let lastUpdate := luk.1
  let gapHours : ℚ := ((clock luk.2 - lastUpdate : Int) : ℚ) / (1000 * 60 * 60)
  let dayGap : Int := ⌊gapHours / 24⌋
  let newBmr := calculateBmr newWeight profile.height profile.age profile.gender
  let newTdee := newBmr * ACTIVITY_MULTIPLIERS profile.activityLevel
  if dayGap = 0 then
    { updatedProfile :=
        { profile with
          weight := newWeight
          bmr := jsRoundQ newBmr
          tdee := jsRoundQ newTdee }
      impactCorrections := none }
  else
    let tToday := clock (luk.2 + 1)
    let today := startOfDay tToday
    let startOfUpdateDay := startOfDay lastUpdate
    let effectiveBmr := calibEffectiveBmr profile
    let sk := calibScanClockAux clock logs exerciseLogs lastUpdate effectiveBmr
      (dayIdx today - dayIdx startOfUpdateDay + 1).toNat startOfUpdateDay
      (⟨0, 0, []⟩, luk.2 + 2)
    let s := sk.1
    let predictionError := s.predictedChange - actualChange
    let newRatio : ℚ := min ((dayGap : ℚ) * 0.1) 0.5
    let oldRatio : ℚ := 1 - newRatio
    let factor0 := orDefault profile.calibrationFactor 1.0
    let newCalibrationFactor :=
      if s.totalBmrBurned > 0 then
        let bmrCorrectionRatio :=
          1 + (s.predictedChange - actualChange) * CALORIES_PER_KG_FAT /
            s.totalBmrBurned
        let thisMeasurementFactor := factor0 * bmrCorrectionRatio
        if |bmrCorrectionRatio - 1| > 0.05 then
          let clampedFactor := max 0.5 (min 1.5 thisMeasurementFactor)
          oldRatio * factor0 + newRatio * clampedFactor
        else factor0
      else factor0
    let impactCorrections :=
      if s.recordsInPeriod.length > 0 ∧ |predictionError| > 0.001 then
        some (s.recordsInPeriod.map fun rec =>
          (rec.1, predictionError / (s.recordsInPeriod.length : ℚ)))
      else none
    { updatedProfile :=
        { profile with
          weight := newWeight
          bmr := jsRoundQ newBmr
          tdee := jsRoundQ newTdee
          lastWeightUpdate := clock sk.2
          calibrationFactor := newCalibrationFactor
          calibrationBaseWeight := some newWeight }
      impactCorrections := impactCorrections }

/-!
Concrete fixtures used by the witness and counterexample theorems.
Timestamps are small epoch values: day `k` starts at `k * 86400000`.
-/

/-- A profile: 30-year-old male, 175 cm, 70 kg, BMR 1500, factor 1, last
weigh-in at noon of day 1, created on day 0. -/
def fixtureProfile : UserProfile :=
  ⟨30, .male, 175, 70, .sedentary, 1500, 1800, 1000, 129600000, 1, some 70⟩

/-- The same profile with calibration factor 1.2. -/
def fixtureProfileF12 : UserProfile :=
  { fixtureProfile with calibrationFactor := 12/10 }

/-- One meal of 2000 kcal at 01:00 of day 2. -/
def fixtureLogs : List MealLog := [⟨1, 2 * 86400000 + 3600000, [2000], 2000⟩]

/-- One meal of 1800 kcal at 01:00 of day 1. -/
def fixtureLogsDay1 : List MealLog := [⟨1, 86400000 + 3600000, [1800], 1800⟩]

/-- One exercise log burning 300 kcal at 01:00 of day 1. -/
def fixtureExercise : List ExerciseLog := [⟨1, 86400000 + 3600000, 300⟩]

/-- An impact history holding day 1's record, `(1800 - 1500) / 7700`. -/
def fixtureHistory : List DailyImpactRecord := [⟨1, 3/77⟩]

/-- The entry instant of the fixture runs: noon of day 3. -/
def fixtureNow : Int := 302400000

/-- A clock whose first read returns `fixtureNow` and whose later reads
return one millisecond later. -/
def fixtureClock : Nat → Int :=
  fun k => if k = 0 then fixtureNow else fixtureNow + 1

/-!
Helper lemmas.
-/

theorem jsRoundQ_zero : jsRoundQ 0 = 0 := by
  norm_num [jsRoundQ]

theorem dayIdx_startOfDay (t : Int) : dayIdx (startOfDay t) = dayIdx t := by
  unfold startOfDay dayIdx
  rw [Int.mul_fdiv_cancel _ (by norm_num [msPerDay])]

theorem sameCalendarDay_of_dayIdx_eq {a b : Int} (h : dayIdx a = dayIdx b) :
    sameCalendarDay a b := by
  unfold sameCalendarDay jsGetDate jsGetMonth jsGetFullYear
  rw [h]
  exact ⟨rfl, rfl, rfl⟩

theorem dayIdx_mono {a b : Int} (h : a ≤ b) : dayIdx a ≤ dayIdx b := by
  unfold dayIdx
  rw [Int.fdiv_eq_ediv _ (by norm_num [msPerDay]),
    Int.fdiv_eq_ediv _ (by norm_num [msPerDay])]
  exact Int.ediv_le_ediv (by norm_num [msPerDay]) h

/-- Adding one day advances the day index by one. -/
theorem dayIdx_add_day (t : Int) : dayIdx (t + msPerDay) = dayIdx t + 1 := by
  unfold dayIdx
  rw [Int.fdiv_eq_ediv _ (by norm_num [msPerDay]),
    Int.fdiv_eq_ediv _ (by norm_num [msPerDay])]
  unfold msPerDay
  omega

/-- Flooring to midnight is idempotent. -/
theorem startOfDay_startOfDay (t : Int) :
    startOfDay (startOfDay t) = startOfDay t := by
  have h := dayIdx_startOfDay t
  unfold startOfDay at h ⊢
  rw [h]

/-- A midnight stays a midnight one day later. -/
theorem startOfDay_add_day {t : Int} (h : startOfDay t = t) :
    startOfDay (t + msPerDay) = t + msPerDay := by
  unfold startOfDay at h ⊢
  rw [dayIdx_add_day, add_mul, one_mul, h]

/-- The day index of the midnight `d * msPerDay` is `d`. -/
theorem dayIdx_mul_msPerDay (d : Int) : dayIdx (d * msPerDay) = d := by
  unfold dayIdx
  exact Int.mul_fdiv_cancel _ (by norm_num [msPerDay])

/-- Unfolding equation of the calibration date loop. -/
theorem calibScanAux_succ (logs : List MealLog) (exerciseLogs : List ExerciseLog)
    (now lastUpdate : Int) (effectiveBmr : ℚ) (n : Nat) (current : Int)
    (s : CalibScan) :
    calibScanAux logs exerciseLogs now lastUpdate effectiveBmr (n + 1) current s
      = calibScanAux logs exerciseLogs now lastUpdate effectiveBmr n
        (current + msPerDay)
        (calibScanStep logs exerciseLogs now lastUpdate effectiveBmr current s) :=
  rfl

/-- Fixture evaluation: day 1 of the fixture window has no logs, so the
loop step leaves the accumulators alone. -/
theorem fixtureScan_step1 (s : CalibScan) :
    calibScanStep fixtureLogs [] 302400000 129600000 1500 86400000 s = s := by
  have hm : mealLogsOn fixtureLogs (startOfDay 86400000) = [] := by decide
  have he : exerciseLogsOn ([] : List ExerciseLog) (startOfDay 86400000) = [] := rfl
  simp [calibScanStep, hm, he]

/-- Fixture evaluation: day 2 is a full past day with one 2000 kcal meal. -/
theorem fixtureScan_step2 :
    calibScanStep fixtureLogs [] 302400000 129600000 1500 172800000
      ⟨0, 0, []⟩ = ⟨5/77, 1500, [(2, 5/77)]⟩ := by
  have hm : mealLogsOn fixtureLogs (startOfDay 172800000) = fixtureLogs := by decide
  have hm2 : mealLogsOn [⟨1, 176400000, [2000], 2000⟩] (startOfDay 172800000)
      = [⟨1, 176400000, [2000], 2000⟩] := by decide
  have he : exerciseLogsOn ([] : List ExerciseLog) (startOfDay 172800000) = [] := rfl
  have hd : formatDateKey (172800000 : Int) = 2 := by decide
  simp only [calibScanStep, hm, he, calibDayBmr, hd]
  rw [if_pos (Or.inl (by simp [fixtureLogs]))]
  rw [if_neg (by decide : ¬ (sameCalendarDay 172800000 129600000 ∧ sameCalendarDay 172800000 302400000)),
    if_neg (by decide : ¬ sameCalendarDay 172800000 129600000),
    if_neg (by decide : ¬ sameCalendarDay 172800000 302400000)]
  norm_num [mealCaloriesOn, hm2, exerciseCaloriesOn, he, fixtureLogs,
    CALORIES_PER_KG_FAT]

/-- Fixture evaluation: day 3 (today) has no logs. -/
theorem fixtureScan_step3 :
    calibScanStep fixtureLogs [] 302400000 129600000 1500 259200000
      ⟨5/77, 1500, [(2, 5/77)]⟩ = ⟨5/77, 1500, [(2, 5/77)]⟩ := by
  have hm : mealLogsOn fixtureLogs (startOfDay 259200000) = [] := by decide
  have he : exerciseLogsOn ([] : List ExerciseLog) (startOfDay 259200000) = [] := rfl
  simp [calibScanStep, hm, he]

/-- The calibration scan of the fixture run. -/
theorem fixtureScan_eval :
    calibScan 302400000 fixtureProfile fixtureLogs [] =
      ⟨5/77, 1500, [(2, 5/77)]⟩ := by
  have h0 : calibScan 302400000 fixtureProfile fixtureLogs [] =
      calibScanAux fixtureLogs [] 302400000 129600000 1500 3 86400000 ⟨0, 0, []⟩ := by
    unfold calibScan calibLastUpdate calibEffectiveBmr
    norm_num [fixtureProfile, orDefault]
    rw [show startOfDay (302400000 : Int) = 259200000 from by decide,
      show startOfDay (129600000 : Int) = 86400000 from by decide,
      show dayIdx (259200000 : Int) = 3 from by decide,
      show dayIdx (86400000 : Int) = 1 from by decide]
    rfl
  rw [h0, show (3 : Nat) = 2 + 1 from rfl, calibScanAux_succ,
    show (86400000 : Int) + msPerDay = 172800000 from by norm_num [msPerDay],
    fixtureScan_step1, show (2 : Nat) = 1 + 1 from rfl, calibScanAux_succ,
    show (172800000 : Int) + msPerDay = 259200000 from by norm_num [msPerDay],
    fixtureScan_step2, show (1 : Nat) = 0 + 1 from rfl, calibScanAux_succ,
    fixtureScan_step3]
  rfl


/-- Over any run of the calibration date loop, the sum of the recorded
per-day impacts moves in lockstep with the `predictedChange` accumulator. -/
theorem calibScanAux_records_sum (logs : List MealLog)
    (exerciseLogs : List ExerciseLog) (now lastUpdate : Int)
    (effectiveBmr : ℚ) :
    ∀ (n : Nat) (current : Int) (s : CalibScan),
      (((calibScanAux logs exerciseLogs now lastUpdate effectiveBmr n current
          s).recordsInPeriod.map fun rec => rec.2).sum
        - (calibScanAux logs exerciseLogs now lastUpdate effectiveBmr n current
            s).predictedChange)
      = ((s.recordsInPeriod.map fun rec => rec.2).sum - s.predictedChange)
  | 0, _, s => rfl
  | n + 1, current, s => by
      rw [calibScanAux_succ,
        calibScanAux_records_sum logs exerciseLogs now lastUpdate effectiveBmr n]
      unfold calibScanStep
      dsimp only
      split
      · simp only [List.map_append, List.sum_append, List.map_cons,
          List.map_nil, List.sum_cons, List.sum_nil]
        ring
      · rfl

/-- The recorded per-day impacts of a calibration scan sum to its
`predictedChange`. -/
theorem calibScan_records_sum (now : Int) (profile : UserProfile)
    (logs : List MealLog) (exerciseLogs : List ExerciseLog) :
    ((calibScan now profile logs exerciseLogs).recordsInPeriod.map
      fun rec => rec.2).sum
      = (calibScan now profile logs exerciseLogs).predictedChange := by
  show ((calibScanAux logs exerciseLogs now (calibLastUpdate now profile)
      (calibEffectiveBmr profile)
      (dayIdx (startOfDay now) -
        dayIdx (startOfDay (calibLastUpdate now profile)) + 1).toNat
      (startOfDay (calibLastUpdate now profile))
      ⟨0, 0, []⟩).recordsInPeriod.map fun rec => rec.2).sum
    = (calibScanAux logs exerciseLogs now (calibLastUpdate now profile)
      (calibEffectiveBmr profile)
      (dayIdx (startOfDay now) -
        dayIdx (startOfDay (calibLastUpdate now profile)) + 1).toNat
      (startOfDay (calibLastUpdate now profile)) ⟨0, 0, []⟩).predictedChange
  have h := calibScanAux_records_sum logs exerciseLogs now
    (calibLastUpdate now profile) (calibEffectiveBmr profile)
    (dayIdx (startOfDay now) -
      dayIdx (startOfDay (calibLastUpdate now profile)) + 1).toNat
    (startOfDay (calibLastUpdate now profile)) ⟨0, 0, []⟩
  simp only [List.map_nil, List.sum_nil] at h
  linarith

/-- Subtracting a constant from each mapped value subtracts `length` copies
of it from the sum. -/
theorem sum_map_sub_const {α : Type} (l : List α) (f : α → ℚ) (c : ℚ) :
    (l.map fun r => f r - c).sum = (l.map f).sum - l.length * c := by
  induction l with
  | nil => simp
  | cons x xs ih => simp [ih]; ring

/-- Claim C5: when `dayGap = 0` (REJECT), `calibrateWeight` returns the
profile with `weight` set to the new weight and BMR/TDEE recomputed from it,
while `lastWeightUpdate`, `calibrationBaseWeight` and `calibrationFactor`
keep their input values, and no corrections are produced. -/
theorem reject_branch_frame (now : Int) (profile : UserProfile)
    (logs : List MealLog) (exerciseLogs : List ExerciseLog) (newWeight : ℚ)
    (h : calibDayGap now profile = 0) :
    (calibrateWeight now profile logs exerciseLogs newWeight).updatedProfile.weight
        = newWeight ∧
    (calibrateWeight now profile logs exerciseLogs newWeight).updatedProfile.bmr
        = jsRoundQ (calculateBmr newWeight profile.height profile.age
            profile.gender) ∧
    (calibrateWeight now profile logs exerciseLogs newWeight).updatedProfile.tdee
        = jsRoundQ (calculateBmr newWeight profile.height profile.age
            profile.gender * ACTIVITY_MULTIPLIERS profile.activityLevel) ∧
    (calibrateWeight now profile logs exerciseLogs
        newWeight).updatedProfile.lastWeightUpdate = profile.lastWeightUpdate ∧
    (calibrateWeight now profile logs exerciseLogs
        newWeight).updatedProfile.calibrationBaseWeight
        = profile.calibrationBaseWeight ∧
    (calibrateWeight now profile logs exerciseLogs
        newWeight).updatedProfile.calibrationFactor
        = profile.calibrationFactor ∧
    (calibrateWeight now profile logs exerciseLogs newWeight).impactCorrections
        = none := by
  simp [calibrateWeight, h]

/-- Witness for C5: a same-day re-weigh (entry instant equal to the last
weigh-in) lands in the REJECT branch and satisfies the frame property. -/
theorem reject_branch_frame_witness :
    calibDayGap 129600000 fixtureProfile = 0 ∧
    (calibrateWeight 129600000 fixtureProfile fixtureLogs [] 69).updatedProfile.weight
      = 69 ∧
    (calibrateWeight 129600000 fixtureProfile fixtureLogs
        [] 69).updatedProfile.lastWeightUpdate
      = fixtureProfile.lastWeightUpdate ∧
    (calibrateWeight 129600000 fixtureProfile fixtureLogs [] 69).impactCorrections
      = none := by
  have h : calibDayGap 129600000 fixtureProfile = 0 := by
    norm_num [calibDayGap, calibLastUpdate, fixtureProfile]
  have hmain := reject_branch_frame 129600000 fixtureProfile fixtureLogs [] 69 h
  exact ⟨h, hmain.1, hmain.2.2.2.1, hmain.2.2.2.2.2.2⟩

/-- Claim C1 (amended): for an ACCEPT calibration (`dayGap ≥ 1`) in which
some day of the window has a logged event and the prediction error exceeds
0.001 kg in magnitude, `calibrateWeight` emits exactly one correction per
logged day, each equal to the prediction error divided by the number of such
days, and over the engine's own recomputed `recordsInPeriod` impacts the
corrected values (`impact − correctionPerDay`) sum exactly to
`actualChange = newWeight − calibrationBaseWeight`.  The same sum taken over
the stored history after the caller applies `storedImpact − correctionPerDay`
need not equal `actualChange`: backfill stores impacts computed from the
uncalibrated full-day BMR, which differ from the scan's calibrated,
partial-day-scaled impacts whenever `calibrationFactor ≠ 1`. -/
theorem calibration_correction_exactness (now : Int) (profile : UserProfile)
    (logs : List MealLog) (exerciseLogs : List ExerciseLog) (newWeight : ℚ)
    (hgap : 1 ≤ calibDayGap now profile)
    (hne : (calibScan now profile logs exerciseLogs).recordsInPeriod ≠ [])
    (herr : |(calibScan now profile logs exerciseLogs).predictedChange -
        calibActualChange profile newWeight| > 0.001) :
    (calibrateWeight now profile logs exerciseLogs newWeight).impactCorrections
      = some ((calibScan now profile logs exerciseLogs).recordsInPeriod.map
          fun rec => (rec.1,
            ((calibScan now profile logs exerciseLogs).predictedChange -
                calibActualChange profile newWeight) /
              ((calibScan now profile logs
                  exerciseLogs).recordsInPeriod.length : ℚ))) ∧
    ((calibScan now profile logs exerciseLogs).recordsInPeriod.map
        fun rec => rec.2 -
          ((calibScan now profile logs exerciseLogs).predictedChange -
              calibActualChange profile newWeight) /
            ((calibScan now profile logs
                exerciseLogs).recordsInPeriod.length : ℚ)).sum
      = calibActualChange profile newWeight := by
  have hne0 : ¬ calibDayGap now profile = 0 := by omega
  have hlen : 0 < (calibScan now profile logs exerciseLogs).recordsInPeriod.length :=
    List.length_pos.mpr hne
  have hcast : ((calibScan now profile logs
      exerciseLogs).recordsInPeriod.length : ℚ) ≠ 0 :=
    Nat.cast_ne_zero.mpr hlen.ne'
  have hs := sum_map_sub_const
    (calibScan now profile logs exerciseLogs).recordsInPeriod
    (fun rec => rec.2)
    (((calibScan now profile logs exerciseLogs).predictedChange -
        calibActualChange profile newWeight) /
      ((calibScan now profile logs exerciseLogs).recordsInPeriod.length : ℚ))
  constructor
  · simp only [calibrateWeight, hne0, if_false, if_neg hne0]
    rw [if_pos ⟨hlen, herr⟩]
  · rw [hs, calibScan_records_sum]
    field_simp

/-- Witness for C1: the fixture run (2-day gap, one logged day, error
82/77 kg) produces the single correction `(2, 82/77)` and the corrected
impact sums exactly to the actual change of −1 kg. -/
theorem calibration_correction_exactness_witness :
    1 ≤ calibDayGap 302400000 fixtureProfile ∧
    (calibrateWeight 302400000 fixtureProfile fixtureLogs [] 69).impactCorrections
      = some [(2, 82/77)] ∧
    ((5 : ℚ)/77 - 82/77) = calibActualChange fixtureProfile 69 := by
  have hgap : 1 ≤ calibDayGap 302400000 fixtureProfile := by
    norm_num [calibDayGap, calibLastUpdate, fixtureProfile]
  have hne : (calibScan 302400000 fixtureProfile fixtureLogs []).recordsInPeriod ≠ [] := by
    rw [fixtureScan_eval]; simp
  have herr : |(calibScan 302400000 fixtureProfile fixtureLogs []).predictedChange -
      calibActualChange fixtureProfile 69| > 0.001 := by
    rw [fixtureScan_eval]
    rw [show (5 : ℚ)/77 - calibActualChange fixtureProfile 69 = 82/77 from by
      norm_num [calibActualChange, fixtureProfile]]
    rw [abs_of_pos (by norm_num : (0 : ℚ) < 82/77)]
    norm_num
  have h := calibration_correction_exactness 302400000 fixtureProfile
    fixtureLogs [] 69 hgap hne herr
  refine ⟨hgap, ?_, ?_⟩
  · rw [h.1, fixtureScan_eval]
    norm_num [calibActualChange, fixtureProfile]
  · norm_num [calibActualChange, fixtureProfile]

/-- When the recorded last update lies in the future of `now`, the
calibration scan accumulates no BMR burn: the window is at most the single
current day, whose elapsed time is floored at zero. -/
theorem calibScan_total_zero_of_future (now : Int) (profile : UserProfile)
    (logs : List MealLog) (exerciseLogs : List ExerciseLog)
    (h : now < calibLastUpdate now profile) :
    (calibScan now profile logs exerciseLogs).totalBmrBurned = 0 := by
  have hmono : dayIdx now ≤ dayIdx (calibLastUpdate now profile) :=
    dayIdx_mono h.le
  show (calibScanAux logs exerciseLogs now (calibLastUpdate now profile)
      (calibEffectiveBmr profile)
      (dayIdx (startOfDay now) -
        dayIdx (startOfDay (calibLastUpdate now profile)) + 1).toNat
      (startOfDay (calibLastUpdate now profile)) ⟨0, 0, []⟩).totalBmrBurned = 0
  rw [dayIdx_startOfDay, dayIdx_startOfDay]
  rcases lt_or_eq_of_le hmono with hlt | heq
  · rw [show (dayIdx now - dayIdx (calibLastUpdate now profile) + 1).toNat = 0
      from by omega]
    rfl
  · rw [show (dayIdx now - dayIdx (calibLastUpdate now profile) + 1).toNat = 1
      from by omega, show (1 : Nat) = 0 + 1 from rfl, calibScanAux_succ]
    show (calibScanStep logs exerciseLogs now (calibLastUpdate now profile)
      (calibEffectiveBmr profile) (startOfDay (calibLastUpdate now profile))
      ⟨0, 0, []⟩).totalBmrBurned = 0
    have hbmr : calibDayBmr now (calibLastUpdate now profile)
        (calibEffectiveBmr profile)
        (startOfDay (calibLastUpdate now profile)) = 0 := by
      unfold calibDayBmr
      rw [if_pos ⟨sameCalendarDay_of_dayIdx_eq (dayIdx_startOfDay _),
        sameCalendarDay_of_dayIdx_eq (by rw [dayIdx_startOfDay, ← heq])⟩]
      have hle : ((now - calibLastUpdate now profile : Int) : ℚ) /
          (1000 * 60 * 60) ≤ 0 := by
        apply div_nonpos_of_nonpos_of_nonneg
        · exact_mod_cast sub_nonpos.mpr h.le
        · norm_num
      dsimp only
      rw [max_eq_left hle, mul_zero, jsRoundQ_zero]
    unfold calibScanStep
    dsimp only
    split
    · rw [hbmr]; norm_num
    · rfl

/-- A convex combination of a factor in `[0.5, 1.5]` and a value clamped to
`[0.5, 1.5]` stays in `[0.5, 1.5]`. -/
theorem clamp_mix_in_range (f c ratio : ℚ) (hf1 : 0.5 ≤ f) (hf2 : f ≤ 1.5)
    (hr1 : 0 ≤ ratio) (hr2 : ratio ≤ 1) :
    0.5 ≤ (1 - ratio) * f + ratio * max 0.5 (min 1.5 c) ∧
      (1 - ratio) * f + ratio * max 0.5 (min 1.5 c) ≤ 1.5 := by
  have hm1 : (0.5 : ℚ) ≤ max 0.5 (min 1.5 c) := le_max_left _ _
  have hm2 : max 0.5 (min 1.5 c) ≤ 1.5 :=
    max_le (by norm_num) (min_le_left _ _)
  constructor
  · nlinarith
  · nlinarith

/-- Claim C2: `calibrateWeight` preserves the invariant
`calibrationFactor ∈ [0.5, 1.5]`, on both the REJECT and the ACCEPT branch,
smoothing included. -/
theorem calibrationFactor_clamp_invariant (now : Int) (profile : UserProfile)
    (logs : List MealLog) (exerciseLogs : List ExerciseLog) (newWeight : ℚ)
    (h1 : 0.5 ≤ profile.calibrationFactor)
    (h2 : profile.calibrationFactor ≤ 1.5) :
    0.5 ≤ (calibrateWeight now profile logs exerciseLogs
        newWeight).updatedProfile.calibrationFactor ∧
      (calibrateWeight now profile logs exerciseLogs
        newWeight).updatedProfile.calibrationFactor ≤ 1.5 := by
  have hf0 : orDefault profile.calibrationFactor 1.0 =
      profile.calibrationFactor := by
    unfold orDefault
    rw [if_neg (by intro h0; rw [h0] at h1; norm_num at h1)]
  by_cases hd : calibDayGap now profile = 0
  · simp only [calibrateWeight, if_pos hd]
    exact ⟨h1, h2⟩
  · have hgap1 : (calibScan now profile logs exerciseLogs).totalBmrBurned > 0 →
        1 ≤ calibDayGap now profile := by
      intro htot
      rcases le_or_lt (calibLastUpdate now profile) now with hle | hgt
      · have h0 : 0 ≤ calibDayGap now profile := by
          unfold calibDayGap
          apply Int.le_floor.mpr
          apply div_nonneg _ (by norm_num)
          apply div_nonneg _ (by norm_num)
          exact_mod_cast Int.sub_nonneg.mpr hle
        omega
      · rw [calibScan_total_zero_of_future now profile logs exerciseLogs hgt]
          at htot
        norm_num at htot
    simp only [calibrateWeight, if_neg hd]
    split
    · rename_i htot
      split
      · rename_i hrgate
        have hdg := hgap1 htot
        have hratio1 : (0 : ℚ) ≤ min ((calibDayGap now profile : ℚ) * 0.1) 0.5 := by
          apply le_min _ (by norm_num)
          have : (1 : ℚ) ≤ (calibDayGap now profile : ℚ) := by exact_mod_cast hdg
          nlinarith
        have hratio2 : min ((calibDayGap now profile : ℚ) * 0.1) 0.5 ≤ 1 :=
          le_trans (min_le_right _ _) (by norm_num)
        rw [hf0]
        exact clamp_mix_in_range profile.calibrationFactor _ _ h1 h2 hratio1
          hratio2
      · rw [hf0]; exact ⟨h1, h2⟩
    · rw [hf0]; exact ⟨h1, h2⟩

/-- Witness for C2: the fixture ACCEPT run starts from factor 1 and ends
with factor 11/10, inside `[0.5, 1.5]`. -/
theorem calibrationFactor_clamp_invariant_witness :
    (0.5 : ℚ) ≤ fixtureProfile.calibrationFactor ∧
      fixtureProfile.calibrationFactor ≤ 1.5 ∧
      0.5 ≤ (calibrateWeight 302400000 fixtureProfile fixtureLogs
          [] 69).updatedProfile.calibrationFactor ∧
      (calibrateWeight 302400000 fixtureProfile fixtureLogs
          [] 69).updatedProfile.calibrationFactor ≤ 1.5 := by
  have h1 : (0.5 : ℚ) ≤ fixtureProfile.calibrationFactor := by
    norm_num [fixtureProfile]
  have h2 : fixtureProfile.calibrationFactor ≤ 1.5 := by
    norm_num [fixtureProfile]
  have h := calibrationFactor_clamp_invariant 302400000 fixtureProfile
    fixtureLogs [] 69 h1 h2
  exact ⟨h1, h2, h.1, h.2⟩

/-- Claim C6: in an ACCEPT calibration with positive total BMR burn whose
implied correction ratio `r = 1 + predictionError × 7700 / totalBmrBurned`
satisfies `|r − 1| ≤ 0.05`, the calibration factor is left unchanged while
the weight is still updated.  (The profile is assumed to satisfy the
documented factor invariant, so the `|| 1.0` fallback is inert.) -/
theorem noise_gate_skips_update (now : Int) (profile : UserProfile)
    (logs : List MealLog) (exerciseLogs : List ExerciseLog) (newWeight : ℚ)
    (hgap : 1 ≤ calibDayGap now profile)
    (hfac1 : 0.5 ≤ profile.calibrationFactor)
    (htot : (calibScan now profile logs exerciseLogs).totalBmrBurned > 0)
    (hr : |1 + ((calibScan now profile logs exerciseLogs).predictedChange -
          calibActualChange profile newWeight) * CALORIES_PER_KG_FAT /
          (calibScan now profile logs exerciseLogs).totalBmrBurned - 1|
        ≤ 0.05) :
    (calibrateWeight now profile logs exerciseLogs
        newWeight).updatedProfile.calibrationFactor
      = profile.calibrationFactor ∧
    (calibrateWeight now profile logs exerciseLogs
        newWeight).updatedProfile.weight = newWeight := by
  have hf0 : orDefault profile.calibrationFactor 1.0 =
      profile.calibrationFactor := by
    unfold orDefault
    rw [if_neg (by intro h0; rw [h0] at hfac1; norm_num at hfac1)]
  have hne0 : ¬ calibDayGap now profile = 0 := by omega
  simp only [calibrateWeight, if_neg hne0]
  exact ⟨by rw [if_pos htot, if_neg (not_lt.mpr hr), hf0], trivial⟩

/-- Witness for C6: weighing in at `70 + 5/77` kg after the fixture window
makes the prediction error zero, so `r = 1` and the factor stays 1 while the
weight becomes `70 + 5/77`. -/
theorem noise_gate_skips_update_witness :
    1 ≤ calibDayGap 302400000 fixtureProfile ∧
    (calibScan 302400000 fixtureProfile fixtureLogs []).totalBmrBurned > 0 ∧
    (calibrateWeight 302400000 fixtureProfile fixtureLogs []
        (70 + 5/77)).updatedProfile.calibrationFactor = 1 ∧
    (calibrateWeight 302400000 fixtureProfile fixtureLogs []
        (70 + 5/77)).updatedProfile.weight = 70 + 5/77 := by
  have hgap : 1 ≤ calibDayGap 302400000 fixtureProfile := by
    norm_num [calibDayGap, calibLastUpdate, fixtureProfile]
  have hfac1 : (0.5 : ℚ) ≤ fixtureProfile.calibrationFactor := by
    norm_num [fixtureProfile]
  have htot : (calibScan 302400000 fixtureProfile fixtureLogs
      []).totalBmrBurned > 0 := by
    rw [fixtureScan_eval]; norm_num
  have hr : |1 + ((calibScan 302400000 fixtureProfile fixtureLogs
        []).predictedChange - calibActualChange fixtureProfile (70 + 5/77)) *
        CALORIES_PER_KG_FAT /
        (calibScan 302400000 fixtureProfile fixtureLogs []).totalBmrBurned - 1|
      ≤ 0.05 := by
    rw [fixtureScan_eval]
    norm_num [calibActualChange, fixtureProfile, CALORIES_PER_KG_FAT]
  have h := noise_gate_skips_update 302400000 fixtureProfile fixtureLogs []
    (70 + 5/77) hgap hfac1 htot hr
  refine ⟨hgap, htot, ?_, h.2⟩
  rw [h.1]
  norm_num [fixtureProfile]

/-- Claim C8 (amended): `calibrateWeight` performs no input validation and
has no error channel: for any `newWeight ≤ 0` it still returns an updated
profile whose `weight` is the non-positive value, with BMR recomputed from
it by Mifflin–St Jeor. -/
theorem calibrate_no_validation (now : Int) (profile : UserProfile)
    (logs : List MealLog) (exerciseLogs : List ExerciseLog) (newWeight : ℚ)
    (_hw : newWeight ≤ 0) :
    (calibrateWeight now profile logs exerciseLogs
        newWeight).updatedProfile.weight = newWeight ∧
    (calibrateWeight now profile logs exerciseLogs
        newWeight).updatedProfile.bmr
      = jsRoundQ (calculateBmr newWeight profile.height profile.age
          profile.gender) := by
  by_cases hd : calibDayGap now profile = 0
  · simp [calibrateWeight, hd]
  · simp [calibrateWeight, hd]

/-- Counterexample to C8 as stated: calling `calibrateWeight` with
`newWeight = -5` does not fail and does not leave the profile unchanged —
the returned profile's weight is `-5` where the input profile's weight was
70. -/
theorem calibrate_validation_counterexample :
    (calibrateWeight 302400000 fixtureProfile fixtureLogs
        [] (-5)).updatedProfile.weight = -5 ∧
    (calibrateWeight 302400000 fixtureProfile fixtureLogs
        [] (-5)).updatedProfile ≠ fixtureProfile ∧
    fixtureProfile.weight = 70 := by
  have hne0 : ¬ calibDayGap 302400000 fixtureProfile = 0 := by
    norm_num [calibDayGap, calibLastUpdate, fixtureProfile]
  have hw : (calibrateWeight 302400000 fixtureProfile fixtureLogs
      [] (-5)).updatedProfile.weight = -5 := by
    simp only [calibrateWeight, if_neg hne0]
  refine ⟨hw, ?_, by norm_num [fixtureProfile]⟩
  intro h
  have := congrArg UserProfile.weight h
  rw [hw] at this
  norm_num [fixtureProfile] at this

/-- Witness for the amended C8: `newWeight = -5` is accepted and written
through, with the Mifflin–St Jeor BMR recomputed from the negative weight. -/
theorem calibrate_no_validation_witness :
    (-5 : ℚ) ≤ 0 ∧
    (calibrateWeight 129600000 fixtureProfile fixtureLogs
        [] (-5)).updatedProfile.weight = -5 ∧
    (calibrateWeight 129600000 fixtureProfile fixtureLogs
        [] (-5)).updatedProfile.bmr = 899 := by
  have hw : (-5 : ℚ) ≤ 0 := by norm_num
  have h := calibrate_no_validation 129600000 fixtureProfile fixtureLogs []
    (-5) hw
  refine ⟨hw, h.1, ?_⟩
  rw [h.2]
  norm_num [jsRoundQ, calculateBmr, fixtureProfile]

/-- Unfolding equation of the backfill date loop. -/
theorem backfillAux_succ (profile : UserProfile) (logs : List MealLog)
    (exerciseLogs : List ExerciseLog) (existingDates : List Int) (n : Nat)
    (current : Int) :
    backfillAux profile logs exerciseLogs existingDates (n + 1) current
      = if formatDateKey current ∈ existingDates then
          backfillAux profile logs exerciseLogs existingDates n
            (current + msPerDay)
        else
          match calculateDailyImpact profile logs exerciseLogs current with
          | some impact =>
              ⟨formatDateKey current, impact⟩ ::
                backfillAux profile logs exerciseLogs existingDates n
                  (current + msPerDay)
          | none =>
              backfillAux profile logs exerciseLogs existingDates n
                (current + msPerDay) :=
  rfl

/-- `calculateDailyImpact` is `none` exactly when the day has neither meal
nor exercise logs. -/
theorem calculateDailyImpact_ne_none_iff (profile : UserProfile)
    (logs : List MealLog) (exerciseLogs : List ExerciseLog) (date : Int) :
    calculateDailyImpact profile logs exerciseLogs date ≠ none ↔
      (mealLogsOn logs (startOfDay date) ≠ [] ∨
        exerciseLogsOn exerciseLogs (startOfDay date) ≠ []) := by
  unfold calculateDailyImpact
  dsimp only
  split
  · rename_i hcond
    simp only [ne_eq, not_true_eq_false, false_iff]
    push_neg
    exact ⟨List.length_eq_zero.mp hcond.1, List.length_eq_zero.mp hcond.2⟩
  · rename_i hcond
    simp only [ne_eq, reduceCtorEq, not_false_eq_true, true_iff]
    rcases not_and_or.mp hcond with h | h
    · exact Or.inl fun hne => h (by rw [hne]; rfl)
    · exact Or.inr fun hne => h (by rw [hne]; rfl)

/-- Membership characterization of the backfill loop: a date key `d` occurs
in the produced records exactly when it lies in the scanned range, is not
already present, and its day has observed activity. -/
theorem backfillAux_mem (profile : UserProfile) (logs : List MealLog)
    (exerciseLogs : List ExerciseLog) (existingDates : List Int) :
    ∀ (n : Nat) (current : Int), startOfDay current = current → ∀ d : Int,
      ((∃ r ∈ backfillAux profile logs exerciseLogs existingDates n current,
          r.date = d) ↔
        (dayIdx current ≤ d ∧ d < dayIdx current + n ∧ d ∉ existingDates ∧
          calculateDailyImpact profile logs exerciseLogs (d * msPerDay)
            ≠ none))
  | 0, current, _, d => by
      simp only [backfillAux, List.not_mem_nil, false_and, exists_false,
        false_iff, not_and]
      intro h1 h2
      omega
  | n + 1, current, hmid, d => by
      have hmid1 : startOfDay (current + msPerDay) = current + msPerDay :=
        startOfDay_add_day hmid
      have ih := backfillAux_mem profile logs exerciseLogs existingDates n
        (current + msPerDay) hmid1 d
      rw [dayIdx_add_day] at ih
      have hkey : formatDateKey current = dayIdx current := rfl
      have hcur : dayIdx current * msPerDay = current := hmid
      rw [backfillAux_succ]
      by_cases hk : formatDateKey current ∈ existingDates
      · rw [if_pos hk]
        rw [ih]
        constructor
        · rintro ⟨ha, hb, hc, he⟩
          exact ⟨by omega, by omega, hc, he⟩
        · rintro ⟨ha, hb, hc, he⟩
          have hne : d ≠ dayIdx current := by
            intro h0
            rw [h0, ← hkey] at hc
            exact hc hk
          exact ⟨by omega, by omega, hc, he⟩
      · rw [if_neg hk]
        rcases hc : calculateDailyImpact profile logs exerciseLogs current
          with _ | impact
        · rw [ih]
          constructor
          · rintro ⟨ha, hb, hcc, he⟩
            exact ⟨by omega, by omega, hcc, he⟩
          · rintro ⟨ha, hb, hcc, he⟩
            have hne : d ≠ dayIdx current := by
              intro h0
              rw [h0, hcur] at he
              exact he hc
            exact ⟨by omega, by omega, hcc, he⟩
        · simp only [List.mem_cons, exists_eq_or_imp]
          rw [ih]
          constructor
          · rintro (hd | ⟨ha, hb, hcc, he⟩)
            · rw [← hd, hkey]
              refine ⟨le_refl _, by omega, by rw [hkey] at hk; exact hk, ?_⟩
              rw [hcur, hc]
              exact fun h0 => by cases h0
            · exact ⟨by omega, by omega, hcc, he⟩
          · rintro ⟨ha, hb, hcc, he⟩
            by_cases hd0 : d = dayIdx current
            · left
              rw [hd0, hkey]
            · right
              exact ⟨by omega, by omega, hcc, he⟩

/-- Top-level membership characterization of `backfillMissingDays` when the
meal-log list is nonempty: a date key occurs among the new records exactly
when it lies in `[startDay, yesterday]`, is not already stored, and its day
has observed activity. -/
theorem backfill_mem_iff (now : Int) (profile : UserProfile) (l0 : MealLog)
    (ls : List MealLog) (exerciseLogs : List ExerciseLog)
    (existingRecords : List DailyImpactRecord) (d : Int) :
    (∃ r ∈ backfillMissingDays now profile (l0 :: ls) exerciseLogs
        existingRecords, r.date = d) ↔
      (dayIdx (backfillStart now profile l0 (l0 :: ls) exerciseLogs) ≤ d ∧
        d < dayIdx (startOfDay now) ∧
        d ∉ existingRecords.map (fun r => r.date) ∧
        calculateDailyImpact profile (l0 :: ls) exerciseLogs (d * msPerDay)
          ≠ none) := by
  have hmid : startOfDay (backfillStart now profile l0 (l0 :: ls) exerciseLogs)
      = backfillStart now profile l0 (l0 :: ls) exerciseLogs :=
    startOfDay_startOfDay _
  have h := backfillAux_mem profile (l0 :: ls) exerciseLogs
    (existingRecords.map fun r => r.date)
    (dayIdx (startOfDay now) -
      dayIdx (backfillStart now profile l0 (l0 :: ls) exerciseLogs)).toNat
    (backfillStart now profile l0 (l0 :: ls) exerciseLogs) hmid d
  show (∃ r ∈ backfillAux profile (l0 :: ls) exerciseLogs
      (existingRecords.map fun r => r.date)
      (dayIdx (startOfDay now) -
        dayIdx (backfillStart now profile l0 (l0 :: ls) exerciseLogs)).toNat
      (backfillStart now profile l0 (l0 :: ls) exerciseLogs), r.date = d) ↔ _
  rw [h]
  constructor
  · rintro ⟨ha, hb, hc, he⟩
    exact ⟨ha, by omega, hc, he⟩
  · rintro ⟨ha, hb, hc, he⟩
    exact ⟨ha, by omega, hc, he⟩

/-- Claim C7: `backfillMissingDays` is idempotent — a second run whose
existing records are the originals plus the first run's output produces no
records at all, and the first run never emits a date already stored. -/
theorem backfill_idempotent (now : Int) (profile : UserProfile)
    (logs : List MealLog) (exerciseLogs : List ExerciseLog)
    (existingRecords : List DailyImpactRecord) :
    backfillMissingDays now profile logs exerciseLogs
        (existingRecords ++
          backfillMissingDays now profile logs exerciseLogs existingRecords)
      = [] ∧
    ∀ r ∈ backfillMissingDays now profile logs exerciseLogs existingRecords,
      r.date ∉ existingRecords.map fun rec => rec.date := by
  cases logs with
  | nil =>
      refine ⟨rfl, fun r hr => absurd hr ?_⟩
      simp [backfillMissingDays]
  | cons l0 ls =>
      constructor
      · rw [List.eq_nil_iff_forall_not_mem]
        intro r hr
        have hmem : ∃ rr ∈ backfillMissingDays now profile (l0 :: ls)
            exerciseLogs (existingRecords ++ backfillMissingDays now profile
              (l0 :: ls) exerciseLogs existingRecords), rr.date = r.date :=
          ⟨r, hr, rfl⟩
        rw [backfill_mem_iff] at hmem
        obtain ⟨ha, hb, hc, he⟩ := hmem
        rw [List.map_append] at hc
        have hc1 : r.date ∉ existingRecords.map (fun rec => rec.date) :=
          fun h => hc (List.mem_append_left _ h)
        have hc2 : r.date ∉ (backfillMissingDays now profile (l0 :: ls)
            exerciseLogs existingRecords).map (fun rec => rec.date) :=
          fun h => hc (List.mem_append_right _ h)
        have hfirst : ∃ rr ∈ backfillMissingDays now profile (l0 :: ls)
            exerciseLogs existingRecords, rr.date = r.date :=
          (backfill_mem_iff now profile l0 ls exerciseLogs existingRecords
            r.date).mpr ⟨ha, hb, hc1, he⟩
        obtain ⟨rr, hrr, hdd⟩ := hfirst
        exact hc2 (List.mem_map.mpr ⟨rr, hrr, hdd⟩)
      · intro r hr
        have hmem := (backfill_mem_iff now profile l0 ls exerciseLogs
          existingRecords r.date).mp ⟨r, hr, rfl⟩
        exact hmem.2.2.1

/-- Witness for C7 at the fixture: the first run emits day 2, and a second
run over the merged store emits nothing. -/
theorem backfill_idempotent_witness :
    (∀ r ∈ backfillMissingDays 302400000 fixtureProfile fixtureLogs [] [],
        r.date ∉ ([] : List DailyImpactRecord).map fun rec => rec.date) ∧
    backfillMissingDays 302400000 fixtureProfile fixtureLogs []
        ([] ++ backfillMissingDays 302400000 fixtureProfile fixtureLogs [] [])
      = [] := by
  have h := backfill_idempotent 302400000 fixtureProfile fixtureLogs [] []
  exact ⟨h.2, h.1⟩

/-- Evaluation of `calculateDailyImpact` at the fixture's day 2. -/
theorem fixtureDailyImpact_eval :
    calculateDailyImpact fixtureProfile fixtureLogs [] 172800000
      = some (5/77) := by
  have hm : mealLogsOn fixtureLogs (startOfDay 172800000) = fixtureLogs := by
    decide
  unfold calculateDailyImpact
  dsimp only
  rw [hm]
  rw [if_neg (by decide : ¬ (fixtureLogs.length = 0 ∧
    (exerciseLogsOn [] (startOfDay 172800000)).length = 0))]
  rw [show exerciseLogsOn [] (startOfDay 172800000) = [] from rfl]
  norm_num [fixtureLogs, fixtureProfile, CALORIES_PER_KG_FAT]

/-- Evaluation of the fixture backfill run: exactly one record, day 2 with
impact `(2000 − 1500 − 0) / 7700 = 5/77` (the profile's stored BMR, not the
calibrated one). -/
theorem fixtureBackfill_eval :
    backfillMissingDays 302400000 fixtureProfile fixtureLogs [] []
      = [⟨2, 5/77⟩] := by
  show backfillAux fixtureProfile fixtureLogs []
      (([] : List DailyImpactRecord).map fun r => r.date)
      (dayIdx (startOfDay 302400000) -
        dayIdx (backfillStart 302400000 fixtureProfile
          ⟨1, 176400000, [2000], 2000⟩ fixtureLogs [])).toNat
      (backfillStart 302400000 fixtureProfile
        ⟨1, 176400000, [2000], 2000⟩ fixtureLogs []) = [⟨2, 5/77⟩]
  rw [show backfillStart 302400000 fixtureProfile
      ⟨1, 176400000, [2000], 2000⟩ fixtureLogs [] = 172800000 from by decide]
  rw [show (dayIdx (startOfDay 302400000) - dayIdx (172800000 : Int)).toNat
      = 1 from by decide]
  rw [show (1 : Nat) = 0 + 1 from rfl, backfillAux_succ]
  rw [if_neg (by decide : ¬ formatDateKey 172800000 ∈
    (([] : List DailyImpactRecord).map fun r => r.date))]
  rw [fixtureDailyImpact_eval]
  rfl

/-- Every record the backfill loop appends carries the impact
`(meals − profile.bmr − exercise) / 7700` of its own day. -/
theorem backfillAux_impact (profile : UserProfile) (logs : List MealLog)
    (exerciseLogs : List ExerciseLog) (existingDates : List Int) :
    ∀ (n : Nat) (current : Int), startOfDay current = current →
      ∀ r ∈ backfillAux profile logs exerciseLogs existingDates n current,
        r.impactKg = (mealCaloriesOn logs (r.date * msPerDay) - profile.bmr -
          exerciseCaloriesOn exerciseLogs (r.date * msPerDay)) /
            CALORIES_PER_KG_FAT
  | 0, _, _, r, hr => absurd hr (List.not_mem_nil r)
  | n + 1, current, hmid, r, hr => by
      have hmid1 : startOfDay (current + msPerDay) = current + msPerDay :=
        startOfDay_add_day hmid
      rw [backfillAux_succ] at hr
      by_cases hk : formatDateKey current ∈ existingDates
      · rw [if_pos hk] at hr
        exact backfillAux_impact profile logs exerciseLogs existingDates n
          (current + msPerDay) hmid1 r hr
      · rw [if_neg hk] at hr
        rcases hc : calculateDailyImpact profile logs exerciseLogs current
          with _ | impact
        · rw [hc] at hr
          exact backfillAux_impact profile logs exerciseLogs existingDates n
            (current + msPerDay) hmid1 r hr
        · rw [hc] at hr
          rcases List.mem_cons.mp hr with hhead | htail
        
          · have hcc : formatDateKey current * msPerDay = current := hmid
            unfold calculateDailyImpact at hc
            dsimp only at hc
            split at hc
            · exact absurd hc (by simp)
            · rw [Option.some.injEq] at hc
              rw [hhead]
              dsimp only
              rw [hcc, ← hc]
              rw [show mealCaloriesOn logs current
                  = mealCaloriesOn logs (startOfDay current) from by
                    rw [hmid],
                show exerciseCaloriesOn exerciseLogs current
                  = exerciseCaloriesOn exerciseLogs (startOfDay current) from by
                    rw [hmid]]
              rfl
          · exact backfillAux_impact profile logs exerciseLogs existingDates n
              (current + msPerDay) hmid1 r htail

/-- Claim C3 (amended): every record materialized by `backfillMissingDays`
has impact `(intake − profile.bmr − expenditure) / 7700`, using the stored
BMR directly — the calibration factor is not applied by the backfill path. -/
theorem backfill_uses_uncalibrated_bmr (now : Int) (profile : UserProfile)
    (logs : List MealLog) (exerciseLogs : List ExerciseLog)
    (existingRecords : List DailyImpactRecord) :
    ∀ r ∈ backfillMissingDays now profile logs exerciseLogs existingRecords,
      r.impactKg = (mealCaloriesOn logs (r.date * msPerDay) - profile.bmr -
        exerciseCaloriesOn exerciseLogs (r.date * msPerDay)) /
          CALORIES_PER_KG_FAT := by
  cases logs with
  | nil => exact fun r hr => absurd hr (List.not_mem_nil r)
  | cons l0 ls =>
      exact fun r hr => backfillAux_impact profile (l0 :: ls) exerciseLogs _ _
        _ (startOfDay_startOfDay _) r hr

/-- Evaluation of the fixture backfill with calibration factor 1.2: the
factor does not change the recorded impact. -/
theorem fixtureBackfillF12_eval :
    backfillMissingDays 302400000 fixtureProfileF12 fixtureLogs [] []
      = [⟨2, 5/77⟩] := by
  have hcalc : calculateDailyImpact fixtureProfileF12 fixtureLogs [] 172800000
      = some (5/77) := by
    have hm : mealLogsOn fixtureLogs (startOfDay 172800000) = fixtureLogs := by
      decide
    unfold calculateDailyImpact
    dsimp only
    rw [hm]
    rw [if_neg (by decide : ¬ (fixtureLogs.length = 0 ∧
      (exerciseLogsOn [] (startOfDay 172800000)).length = 0))]
    rw [show exerciseLogsOn [] (startOfDay 172800000) = [] from rfl]
    norm_num [fixtureLogs, fixtureProfileF12, fixtureProfile,
      CALORIES_PER_KG_FAT]
  show backfillAux fixtureProfileF12 fixtureLogs []
      (([] : List DailyImpactRecord).map fun r => r.date)
      (dayIdx (startOfDay 302400000) -
        dayIdx (backfillStart 302400000 fixtureProfileF12
          ⟨1, 176400000, [2000], 2000⟩ fixtureLogs [])).toNat
      (backfillStart 302400000 fixtureProfileF12
        ⟨1, 176400000, [2000], 2000⟩ fixtureLogs []) = [⟨2, 5/77⟩]
  rw [show backfillStart 302400000 fixtureProfileF12
      ⟨1, 176400000, [2000], 2000⟩ fixtureLogs [] = 172800000 from by decide]
  rw [show (dayIdx (startOfDay 302400000) - dayIdx (172800000 : Int)).toNat
      = 1 from by decide]
  rw [show (1 : Nat) = 0 + 1 from rfl, backfillAux_succ]
  rw [if_neg (by decide : ¬ formatDateKey 172800000 ∈
    (([] : List DailyImpactRecord).map fun r => r.date))]
  rw [hcalc]
  rfl

/-- Counterexample to C3 as stated: with calibration factor 1.2 the recorded
impact for day 2 is `(2000 − 1500)/7700 = 5/77`, not
`(2000 − 1500 × 1.2)/7700` as the effective-BMR reading would require. -/
theorem backfill_effectiveBmr_counterexample :
    backfillMissingDays 302400000 fixtureProfileF12 fixtureLogs [] []
      = [⟨2, 5/77⟩] ∧
    (5 : ℚ)/77 ≠
      (2000 - fixtureProfileF12.bmr * fixtureProfileF12.calibrationFactor - 0)
        / 7700 := by
  refine ⟨fixtureBackfillF12_eval, ?_⟩
  norm_num [fixtureProfileF12, fixtureProfile]

/-- Witness for the amended C3: the fixture record `(2, 5/77)` satisfies the
stored-BMR formula. -/
theorem backfill_uses_uncalibrated_bmr_witness :
    (⟨2, 5/77⟩ : DailyImpactRecord) ∈
      backfillMissingDays 302400000 fixtureProfile fixtureLogs [] [] ∧
    (5 : ℚ)/77 =
      (mealCaloriesOn fixtureLogs ((2 : Int) * msPerDay) -
        fixtureProfile.bmr -
        exerciseCaloriesOn [] ((2 : Int) * msPerDay)) / CALORIES_PER_KG_FAT := by
  have hmem : (⟨2, 5/77⟩ : DailyImpactRecord) ∈
      backfillMissingDays 302400000 fixtureProfile fixtureLogs [] [] := by
    rw [fixtureBackfill_eval]
    exact List.mem_singleton.mpr rfl
  have h := backfill_uses_uncalibrated_bmr 302400000 fixtureProfile
    fixtureLogs [] [] ⟨2, 5/77⟩ hmem
  exact ⟨hmem, h⟩

/-- Claim C4 (amended): provided the meal-log list is nonempty (the backfill
effect returns early when it is empty, even if exercise logs exist), a date
in `[startDay, yesterday]` that is not already stored receives a record
exactly when at least one meal or exercise event falls on it — in
particular a day with only exercise events gets a record. -/
theorem backfill_observed_day_iff (now : Int) (profile : UserProfile)
    (l0 : MealLog) (ls : List MealLog) (exerciseLogs : List ExerciseLog)
    (existingRecords : List DailyImpactRecord) (d : Int)
    (hd1 : dayIdx (backfillStart now profile l0 (l0 :: ls) exerciseLogs) ≤ d)
    (hd2 : d < dayIdx (startOfDay now))
    (hd3 : d ∉ existingRecords.map fun r => r.date) :
    ((∃ r ∈ backfillMissingDays now profile (l0 :: ls) exerciseLogs
        existingRecords, r.date = d) ↔
      (mealLogsOn (l0 :: ls) (d * msPerDay) ≠ [] ∨
        exerciseLogsOn exerciseLogs (d * msPerDay) ≠ [])) := by
  have hsd : startOfDay (d * msPerDay) = d * msPerDay := by
    unfold startOfDay
    rw [dayIdx_mul_msPerDay]
  rw [backfill_mem_iff]
  constructor
  · rintro ⟨_, _, _, he⟩
    have h := (calculateDailyImpact_ne_none_iff profile (l0 :: ls)
      exerciseLogs (d * msPerDay)).mp he
    rwa [hsd] at h
  · intro h
    refine ⟨hd1, hd2, hd3, ?_⟩
    apply (calculateDailyImpact_ne_none_iff profile (l0 :: ls) exerciseLogs
      (d * msPerDay)).mpr
    rwa [hsd]

/-- Counterexample to C4 as stated: with no meal logs at all, a day carrying
an expenditure event inside the backfill range gets no record — the effect
returns early on an empty meal-log list. -/
theorem backfill_exercise_only_counterexample :
    backfillMissingDays 302400000 fixtureProfile [] fixtureExercise [] = [] ∧
    exerciseLogsOn fixtureExercise ((1 : Int) * msPerDay) ≠ [] ∧
    dayIdx (startOfDay fixtureProfile.createdAt) ≤ 1 ∧
    (1 : Int) < dayIdx (startOfDay 302400000) := by
  refine ⟨rfl, ?_, by decide, by decide⟩
  rw [show exerciseLogsOn fixtureExercise ((1 : Int) * msPerDay)
      = fixtureExercise from by decide]
  simp [fixtureExercise]

/-- Witness for the amended C4: with one meal on day 2 present, day 1 —
which has only an exercise event — receives a record. -/
theorem backfill_observed_day_iff_witness :
    dayIdx (backfillStart 302400000 fixtureProfile
        ⟨1, 176400000, [2000], 2000⟩ fixtureLogs fixtureExercise) ≤ 1 ∧
    (1 : Int) < dayIdx (startOfDay 302400000) ∧
    mealLogsOn fixtureLogs ((1 : Int) * msPerDay) = [] ∧
    (∃ r ∈ backfillMissingDays 302400000 fixtureProfile fixtureLogs
        fixtureExercise [], r.date = 1) := by
  have hd1 : dayIdx (backfillStart 302400000 fixtureProfile
      ⟨1, 176400000, [2000], 2000⟩ fixtureLogs fixtureExercise) ≤ 1 := by
    decide
  have hd2 : (1 : Int) < dayIdx (startOfDay 302400000) := by decide
  have hd3 : (1 : Int) ∉ ([] : List DailyImpactRecord).map fun r => r.date := by
    simp
  have hobs : mealLogsOn fixtureLogs ((1 : Int) * msPerDay) ≠ [] ∨
      exerciseLogsOn fixtureExercise ((1 : Int) * msPerDay) ≠ [] := by
    right
    rw [show exerciseLogsOn fixtureExercise ((1 : Int) * msPerDay)
        = fixtureExercise from by decide]
    simp [fixtureExercise]
  have h := (backfill_observed_day_iff 302400000 fixtureProfile
    ⟨1, 176400000, [2000], 2000⟩ [] fixtureExercise [] 1 hd1 hd2 hd3).mpr hobs
  exact ⟨hd1, hd2, by decide, h⟩

/-- Claim C9 (amended): past-day record values are changed by exactly two
operations.  `handleUpdateWeight`'s correction pass adjusts a matched record
by subtracting its `correctionPerDay` (never replacing it wholesale), and
`handleEditMealLog` wholesale-recomputes the record of the edited meal's
(past) day; in both cases every other record is carried through unchanged
and the set of dates is preserved. -/
theorem pastday_record_mutators (now : Int) (profile : UserProfile)
    (logs : List MealLog) (exerciseLogs : List ExerciseLog)
    (history : List DailyImpactRecord) (logId : Nat)
    (updates : MealLogUpdates) (editedLog : MealLog)
    (hfind : (editUpdatedLogs logs logId updates).find?
        (fun l => decide (l.id = logId)) = some editedLog) :
    ((handleEditMealLog now profile logs exerciseLogs history logId
        updates).2.map (fun r => r.date) = history.map (fun r => r.date)) ∧
    (∀ r ∈ (handleEditMealLog now profile logs exerciseLogs history logId
        updates).2,
      r ∈ history ∨
        (r.date = formatDateKey editedLog.timestamp ∧
          r.impactKg = (mealCaloriesOn (editUpdatedLogs logs logId updates)
              (startOfDay editedLog.timestamp) - profile.bmr -
              exerciseCaloriesOn exerciseLogs
                (startOfDay editedLog.timestamp)) / CALORIES_PER_KG_FAT)) ∧
    (∀ (h2 : List DailyImpactRecord) (cs : List (Int × ℚ)),
      ((applyCorrections h2 (some cs)).map (fun r => r.date)
          = h2.map (fun r => r.date)) ∧
      ∀ r1 ∈ applyCorrections h2 (some cs), ∃ r ∈ h2, r1.date = r.date ∧
        (r1 = r ∨ ∃ c ∈ cs, c.1 = r.date ∧
          r1.impactKg = r.impactKg - c.2)) := by
  refine ⟨?_, ?_, ?_⟩
  · unfold handleEditMealLog
    dsimp only
    rw [hfind]
    dsimp only
    split
    · rfl
    · rw [List.map_map]
      apply List.map_congr_left
      intro r _
      dsimp only [Function.comp]
      split
      · rfl
      · rfl
  · unfold handleEditMealLog
    dsimp only
    rw [hfind]
    dsimp only
    split
    · exact fun r hr => Or.inl hr
    · intro r hr
      rcases List.mem_map.mp hr with ⟨r0, hr0, hmapped⟩
      by_cases hdate : r0.date = formatDateKey editedLog.timestamp
      · rw [if_pos hdate] at hmapped
        right
        rw [← hmapped]
        exact ⟨hdate, rfl⟩
      · rw [if_neg hdate] at hmapped
        exact Or.inl (hmapped ▸ hr0)
  · intro h2 cs
    constructor
    · unfold applyCorrections
      rw [List.map_map]
      apply List.map_congr_left
      intro r _
      dsimp only [Function.comp]
      split
      · rfl
      · rfl
    · intro r1 hr1
      unfold applyCorrections at hr1
      rcases List.mem_map.mp hr1 with ⟨r, hr, hmapped⟩
      refine ⟨r, hr, ?_⟩
      rcases hc : cs.find? (fun c => decide (c.1 = r.date)) with _ | c
      · rw [hc] at hmapped
        exact ⟨by rw [← hmapped], Or.inl hmapped.symm⟩
      · rw [hc] at hmapped
        have hcmem := List.mem_of_find?_eq_some hc
        have hp := List.find?_some hc
        have hcdate : c.1 = r.date := of_decide_eq_true hp
        refine ⟨by rw [← hmapped], Or.inr ⟨c, hcmem, hcdate, ?_⟩⟩
        rw [← hmapped]

/-- Counterexample to C9 as stated: editing a past meal (raising it from
1800 to 2000 kcal) wholesale-replaces that day's stored impact with the
recomputed value `5/77`, overwriting the previous `3/77` outside any
calibration correction pass. -/
theorem pastday_immutability_counterexample :
    (handleEditMealLog 302400000 fixtureProfile fixtureLogsDay1 []
        fixtureHistory 1 ⟨none, none, some 2000⟩).2 = [⟨1, 5/77⟩] ∧
    fixtureHistory = [⟨1, 3/77⟩] ∧
    (5 : ℚ)/77 ≠ 3/77 := by
  refine ⟨?_, rfl, by norm_num⟩
  have hupd : editUpdatedLogs fixtureLogsDay1 1 ⟨none, none, some 2000⟩
      = [⟨1, 90000000, [1800], 2000⟩] := rfl
  have hfind : (editUpdatedLogs fixtureLogsDay1 1
      ⟨none, none, some 2000⟩).find? (fun l => decide (l.id = 1))
      = some ⟨1, 90000000, [1800], 2000⟩ := rfl
  unfold handleEditMealLog
  dsimp only
  rw [hfind]
  dsimp only
  rw [if_neg (by decide :
    ¬ sameCalendarDay (90000000 : Int) (302400000 : Int))]
  have hm : mealCaloriesOn (editUpdatedLogs fixtureLogsDay1 1
      ⟨none, none, some 2000⟩) (startOfDay 90000000) = 2000 := by
    rw [hupd]
    unfold mealCaloriesOn
    rw [show mealLogsOn [⟨1, 90000000, [1800], 2000⟩] (startOfDay 90000000)
        = [⟨1, 90000000, [1800], 2000⟩] from by decide]
    norm_num
  have hex : exerciseCaloriesOn [] (startOfDay 90000000) = 0 := rfl
  dsimp only
  rw [hm, hex]
  simp only [fixtureHistory, List.map_cons, List.map_nil]
  rw [if_pos (show (1 : Int) = formatDateKey 90000000 from by decide)]
  norm_num [CALORIES_PER_KG_FAT, fixtureProfile]

/-- Witness for the amended C9 at the fixture: the edit pass preserves the
record dates, and a correction pass over the fixture history adjusts the
matched record by subtraction. -/
theorem pastday_record_mutators_witness :
    (editUpdatedLogs fixtureLogsDay1 1 ⟨none, none, some 2000⟩).find?
        (fun l => decide (l.id = 1)) = some ⟨1, 90000000, [1800], 2000⟩ ∧
    (handleEditMealLog 302400000 fixtureProfile fixtureLogsDay1 []
        fixtureHistory 1 ⟨none, none, some 2000⟩).2.map (fun r => r.date)
      = fixtureHistory.map (fun r => r.date) ∧
    ∀ r1 ∈ applyCorrections fixtureHistory (some [(1, 1/77)]),
      ∃ r ∈ fixtureHistory, r1.date = r.date ∧
        (r1 = r ∨ ∃ c ∈ [((1 : Int), (1 : ℚ)/77)], c.1 = r.date ∧
          r1.impactKg = r.impactKg - c.2) := by
  have hfind : (editUpdatedLogs fixtureLogsDay1 1
      ⟨none, none, some 2000⟩).find? (fun l => decide (l.id = 1))
      = some ⟨1, 90000000, [1800], 2000⟩ := rfl
  have h := pastday_record_mutators 302400000 fixtureProfile fixtureLogsDay1
    [] fixtureHistory 1 ⟨none, none, some 2000⟩ ⟨1, 90000000, [1800], 2000⟩
    hfind
  exact ⟨hfind, h.1, (h.2.2 fixtureHistory [(1, 1/77)]).2⟩

/-- With a constant clock, the short-circuit `isToday` read chain decides
exactly `sameCalendarDay`. -/
theorem isTodayClock_const_fst (t : Int) (k : Nat) (current : Int) :
    ((isTodayClock (fun _ => t) k current).1 = true) ↔
      sameCalendarDay current t := by
  unfold isTodayClock sameCalendarDay
  split_ifs with h1 h2 h3 <;> simp_all

/-- With a constant clock, the per-day BMR computation agrees with the
single-instant version. -/
theorem calibDayBmrClock_const (t lastUpdate : Int) (effectiveBmr : ℚ)
    (current : Int) (k : Nat) :
    (calibDayBmrClock (fun _ => t) k lastUpdate effectiveBmr current).1
      = calibDayBmr t lastUpdate effectiveBmr current := by
  unfold calibDayBmrClock calibDayBmr
  dsimp only
  by_cases hf : sameCalendarDay current lastUpdate <;>
    by_cases ht : sameCalendarDay current t
  · rw [if_pos ⟨hf, (isTodayClock_const_fst t k current).mpr ht⟩,
      if_pos ⟨hf, ht⟩]
  · rw [if_neg (fun hc => ht ((isTodayClock_const_fst t k current).mp hc.2)),
      if_pos hf, if_neg (fun hc => ht hc.2), if_pos hf]
  · rw [if_neg (fun hc => hf hc.1), if_neg hf,
      if_pos ((isTodayClock_const_fst t k current).mpr ht),
      if_neg (fun hc => hf hc.1), if_neg hf, if_pos ht]
  · rw [if_neg (fun hc => hf hc.1), if_neg hf,
      if_neg (fun hc => ht ((isTodayClock_const_fst t k current).mp hc)),
      if_neg (fun hc => hf hc.1), if_neg hf, if_neg ht]

/-- With a constant clock, the clocked scan computes the single-instant
scan. -/
theorem calibScanClockAux_const (t : Int) (logs : List MealLog)
    (exerciseLogs : List ExerciseLog) (lastUpdate : Int) (effectiveBmr : ℚ) :
    ∀ (n : Nat) (current : Int) (s : CalibScan) (k : Nat),
      (calibScanClockAux (fun _ => t) logs exerciseLogs lastUpdate
          effectiveBmr n current (s, k)).1
        = calibScanAux logs exerciseLogs t lastUpdate effectiveBmr n current s
  | 0, _, _, _ => rfl
  | n + 1, current, s, k => by
      unfold calibScanClockAux calibScanAux calibScanStep
      dsimp only
      rw [calibDayBmrClock_const t lastUpdate effectiveBmr current k]
      exact calibScanClockAux_const t logs exerciseLogs lastUpdate
        effectiveBmr n (current + msPerDay) _ _

/-- With a constant clock, the clocked calibration equals the single-instant
`calibrateWeight` at that instant. -/
theorem calibrateWeightClock_const (t : Int) (profile : UserProfile)
    (logs : List MealLog) (exerciseLogs : List ExerciseLog) (newWeight : ℚ) :
    calibrateWeightClock (fun _ => t) profile logs exerciseLogs newWeight
      = calibrateWeight t profile logs exerciseLogs newWeight := by
  unfold calibrateWeightClock calibrateWeight calibDayGap calibActualChange
    calibScan calibLastUpdate
  dsimp only
  by_cases h0 : profile.lastWeightUpdate = 0
  · simp only [h0, if_true, reduceIte]
    by_cases hd : (⌊((t - t : Int) : ℚ) / (1000 * 60 * 60) / 24⌋ : Int) = 0
    · rw [if_pos hd, if_pos hd]
    · rw [if_neg hd, if_neg hd]
      rw [calibScanClockAux_const]
  · simp only [h0, if_false, reduceIte]
    by_cases hd : (⌊((t - profile.lastWeightUpdate : Int) : ℚ) /
        (1000 * 60 * 60) / 24⌋ : Int) = 0
    · rw [if_pos hd, if_pos hd]
    · rw [if_neg hd, if_neg hd]
      rw [calibScanClockAux_const]

/-- The read counter of the clocked scan never decreases. -/
theorem calibScanClockAux_counter_le (clock : Nat → Int)
    (logs : List MealLog) (exerciseLogs : List ExerciseLog)
    (lastUpdate : Int) (effectiveBmr : ℚ) :
    ∀ (n : Nat) (current : Int) (s : CalibScan) (k : Nat),
      k ≤ (calibScanClockAux clock logs exerciseLogs lastUpdate effectiveBmr
        n current (s, k)).2
  | 0, _, _, _ => le_refl _
  | n + 1, current, s, k => by
      have hit : k ≤ (isTodayClock clock k current).2 := by
        unfold isTodayClock
        split_ifs <;> omega
      have hbk : k ≤ (calibDayBmrClock clock k lastUpdate effectiveBmr
          current).2 := by
        unfold calibDayBmrClock
        dsimp only
        split_ifs <;> omega
      unfold calibScanClockAux
      dsimp only
      exact le_trans hbk (calibScanClockAux_counter_le clock logs exerciseLogs
        lastUpdate effectiveBmr n (current + msPerDay) _ _)

/-- `fixtureClock` returns the later instant at every read after the first. -/
theorem fixtureClock_of_pos {m : Nat} (h : 1 ≤ m) :
    fixtureClock m = fixtureNow + 1 := by
  unfold fixtureClock
  rw [if_neg (by omega : ¬ m = 0)]

/-- The fixture run of the clocked calibration returns `lastWeightUpdate`
from the final clock read, one millisecond after entry. -/
theorem fixtureClockRun_lastUpdate :
    (calibrateWeightClock fixtureClock fixtureProfile fixtureLogs []
        69).updatedProfile.lastWeightUpdate = fixtureNow + 1 := by
  unfold calibrateWeightClock
  dsimp only
  rw [show (if fixtureProfile.lastWeightUpdate = 0 then
      ((fixtureClock 0 : Int), (1 : Nat))
      else (fixtureProfile.lastWeightUpdate, 0))
      = ((129600000 : Int), (0 : Nat)) from by decide]
  dsimp only
  rw [if_neg (show ¬ (⌊((fixtureClock 0 - 129600000 : Int) : ℚ) /
      (1000 * 60 * 60) / 24⌋ : Int) = 0 from by
    norm_num [fixtureClock, fixtureNow])]
  dsimp only
  exact fixtureClock_of_pos (le_trans (by norm_num)
    (calibScanClockAux_counter_le fixtureClock fixtureLogs [] 129600000
      (calibEffectiveBmr fixtureProfile) _ _ _ 2))

/-- The same run with every clock read pinned to the entry instant returns
the entry instant as `lastWeightUpdate`. -/
theorem fixtureConstRun_lastUpdate :
    (calibrateWeightClock (fun _ => fixtureNow) fixtureProfile fixtureLogs []
        69).updatedProfile.lastWeightUpdate = fixtureNow := by
  rw [calibrateWeightClock_const]
  have hne0 : ¬ calibDayGap fixtureNow fixtureProfile = 0 := by
    norm_num [calibDayGap, calibLastUpdate, fixtureProfile, fixtureNow]
  simp only [calibrateWeight, if_neg hne0]

/-- Claim C10 (amended): a single invocation of `calibrateWeight` reads the
clock at several points (gap computation, today determination, per-day
today checks, partial-day scaling, and the returned `lastWeightUpdate` from
a fresh read at return); whenever all those reads return the same value,
the invocation coincides with the single-instant semantics at the entry
read. -/
theorem calibrate_clock_single_read_equiv (clock : Nat → Int)
    (profile : UserProfile) (logs : List MealLog)
    (exerciseLogs : List ExerciseLog) (newWeight : ℚ)
    (h : ∀ k, clock k = clock 0) :
    calibrateWeightClock clock profile logs exerciseLogs newWeight
      = calibrateWeight (clock 0) profile logs exerciseLogs newWeight := by
  have hc : clock = fun _ => clock 0 := funext h
  rw [hc]
  exact calibrateWeightClock_const (clock 0) profile logs exerciseLogs
    newWeight

/-- Counterexample to C10 as stated: with a clock that advances one
millisecond after the entry read, the invocation differs from the run in
which every read returns the entry value — the returned `lastWeightUpdate`
comes from the final read, not the entry read. -/
theorem calibrate_clock_counterexample :
    fixtureClock 0 = fixtureNow ∧
    (calibrateWeightClock fixtureClock fixtureProfile fixtureLogs []
        69).updatedProfile.lastWeightUpdate
      ≠ (calibrateWeightClock (fun _ => fixtureNow) fixtureProfile
          fixtureLogs [] 69).updatedProfile.lastWeightUpdate := by
  refine ⟨rfl, ?_⟩
  rw [fixtureClockRun_lastUpdate, fixtureConstRun_lastUpdate]
  decide

/-- Witness for the amended C10: a genuinely constant clock satisfies the
hypothesis and the clocked run equals the single-instant run. -/
theorem calibrate_clock_single_read_equiv_witness :
    (∀ k : Nat, (fun _ : Nat => fixtureNow) k
        = (fun _ : Nat => fixtureNow) 0) ∧
    calibrateWeightClock (fun _ => fixtureNow) fixtureProfile fixtureLogs []
        69
      = calibrateWeight fixtureNow fixtureProfile fixtureLogs [] 69 := by
  refine ⟨fun k => rfl, ?_⟩
  exact calibrate_clock_single_read_equiv (fun _ => fixtureNow)
    fixtureProfile fixtureLogs [] 69 (fun k => rfl)

/-- Fixture evaluation with calibration factor 1.2 (effective BMR 1800):
day 1 of the window has no logs. -/
theorem fixtureScanF12_step1 (s : CalibScan) :
    calibScanStep fixtureLogs [] 302400000 129600000 1800 86400000 s = s := by
  have hm : mealLogsOn fixtureLogs (startOfDay 86400000) = [] := by decide
  have he : exerciseLogsOn ([] : List ExerciseLog) (startOfDay 86400000)
      = [] := rfl
  simp [calibScanStep, hm, he]

/-- Fixture evaluation with effective BMR 1800: day 2 is a full past day
with one 2000 kcal meal, so its impact is `(2000 − 1800)/7700 = 2/77`. -/
theorem fixtureScanF12_step2 :
    calibScanStep fixtureLogs [] 302400000 129600000 1800 172800000
      ⟨0, 0, []⟩ = ⟨2/77, 1800, [(2, 2/77)]⟩ := by
  have hm : mealLogsOn fixtureLogs (startOfDay 172800000) = fixtureLogs := by
    decide
  have hm2 : mealLogsOn [⟨1, 176400000, [2000], 2000⟩] (startOfDay 172800000)
      = [⟨1, 176400000, [2000], 2000⟩] := by decide
  have he : exerciseLogsOn ([] : List ExerciseLog) (startOfDay 172800000)
      = [] := rfl
  have hd : formatDateKey (172800000 : Int) = 2 := by decide
  simp only [calibScanStep, hm, he, calibDayBmr, hd]
  rw [if_pos (Or.inl (by simp [fixtureLogs]))]
  rw [if_neg (by decide : ¬ (sameCalendarDay 172800000 129600000 ∧
      sameCalendarDay 172800000 302400000)),
    if_neg (by decide : ¬ sameCalendarDay 172800000 129600000),
    if_neg (by decide : ¬ sameCalendarDay 172800000 302400000)]
  norm_num [mealCaloriesOn, hm2, exerciseCaloriesOn, he, fixtureLogs,
    CALORIES_PER_KG_FAT]

/-- Fixture evaluation with effective BMR 1800: day 3 (today) has no logs. -/
theorem fixtureScanF12_step3 :
    calibScanStep fixtureLogs [] 302400000 129600000 1800 259200000
      ⟨2/77, 1800, [(2, 2/77)]⟩ = ⟨2/77, 1800, [(2, 2/77)]⟩ := by
  have hm : mealLogsOn fixtureLogs (startOfDay 259200000) = [] := by decide
  have he : exerciseLogsOn ([] : List ExerciseLog) (startOfDay 259200000)
      = [] := rfl
  simp [calibScanStep, hm, he]

/-- The calibration scan of the factor-1.2 fixture run: effective BMR 1800,
one recorded day with impact `2/77`. -/
theorem fixtureScanF12_eval :
    calibScan 302400000 fixtureProfileF12 fixtureLogs [] =
      ⟨2/77, 1800, [(2, 2/77)]⟩ := by
  have h0 : calibScan 302400000 fixtureProfileF12 fixtureLogs [] =
      calibScanAux fixtureLogs [] 302400000 129600000 1800 3 86400000
        ⟨0, 0, []⟩ := by
    unfold calibScan calibLastUpdate calibEffectiveBmr
    norm_num [fixtureProfileF12, fixtureProfile, orDefault]
    rw [show startOfDay (302400000 : Int) = 259200000 from by decide,
      show startOfDay (129600000 : Int) = 86400000 from by decide,
      show dayIdx (259200000 : Int) = 3 from by decide,
      show dayIdx (86400000 : Int) = 1 from by decide]
    rfl
  rw [h0, show (3 : Nat) = 2 + 1 from rfl, calibScanAux_succ,
    show (86400000 : Int) + msPerDay = 172800000 from by norm_num [msPerDay],
    fixtureScanF12_step1, show (2 : Nat) = 1 + 1 from rfl, calibScanAux_succ,
    show (172800000 : Int) + msPerDay = 259200000 from by norm_num [msPerDay],
    fixtureScanF12_step2, show (1 : Nat) = 0 + 1 from rfl, calibScanAux_succ,
    fixtureScanF12_step3]
  rfl

/-- The factor-1.2 fixture calibration at new weight 69 emits the single
correction `(2, 79/77)`. -/
theorem fixtureCalibrateF12_corrections :
    (calibrateWeight 302400000 fixtureProfileF12 fixtureLogs []
        69).impactCorrections = some [(2, 79/77)] := by
  have hne0 : ¬ calibDayGap 302400000 fixtureProfileF12 = 0 := by
    norm_num [calibDayGap, calibLastUpdate, fixtureProfileF12, fixtureProfile]
  simp only [calibrateWeight, if_neg hne0]
  rw [fixtureScanF12_eval]
  rw [if_pos ⟨by norm_num, by
    rw [show (2 : ℚ)/77 - calibActualChange fixtureProfileF12 69 = 79/77
      from by norm_num [calibActualChange, fixtureProfileF12, fixtureProfile]]
    rw [abs_of_pos (by norm_num : (0 : ℚ) < 79/77)]
    norm_num⟩]
  norm_num [calibActualChange, fixtureProfileF12, fixtureProfile]

/-- Counterexample to C1 as stated (store level): with calibration factor
1.2, backfill stores day 2 as `5/77` (uncalibrated BMR), while the
calibration scan recomputes it as `2/77` (calibrated BMR); applying the
emitted correction to the store via `handleUpdateWeight` leaves `−74/77`,
but the actual change is `−1` — off by `3/77`, far beyond 1e-9. -/
theorem calibration_store_exactness_counterexample :
    backfillMissingDays 302400000 fixtureProfileF12 fixtureLogs [] []
      = [⟨2, 5/77⟩] ∧
    (calibrateWeight 302400000 fixtureProfileF12 fixtureLogs []
        69).impactCorrections = some [(2, 79/77)] ∧
    calibActualChange fixtureProfileF12 69 = -1 ∧
    (handleUpdateWeight 302400000 fixtureProfileF12 fixtureLogs []
        [⟨2, 5/77⟩] 69).2 = [⟨2, -74/77⟩] ∧
    |(-74 : ℚ)/77 - (-1)| > 1/1000000000 := by
  refine ⟨fixtureBackfillF12_eval, fixtureCalibrateF12_corrections,
    by norm_num [calibActualChange, fixtureProfileF12, fixtureProfile],
    ?_, ?_⟩
  · unfold handleUpdateWeight
    dsimp only
    rw [fixtureCalibrateF12_corrections]
    show applyCorrections [⟨2, 5/77⟩] (some [(2, 79/77)]) = [⟨2, -74/77⟩]
    unfold applyCorrections
    dsimp only [List.map]
    rw [show List.find? (fun c => decide (c.1 = (2 : Int))) [(2, (79 : ℚ)/77)]
        = some (2, 79/77) from rfl]
    norm_num
  · rw [show (-74 : ℚ)/77 - (-1) = 3/77 from by norm_num,
      abs_of_pos (by norm_num : (0 : ℚ) < 3/77)]
    norm_num

end SmartCalorie
